import Mathlib

/-!
Shallow embedding of the generation-orchestration core of a WordPress/WooCommerce
content-automation service (`app.py`), together with proofs about its status
state machine, multi-key model client, post pipeline, product rewrite pipeline
and discovery logic.

Python strings are modelled as Lean `String`s (sequences of Unicode code
points, matching Python's `str` indexing/length).  The `re`-module patterns
used by the source are small and concrete, so each one is modelled by a
dedicated total scanner over the character list.  Where a scanner cannot be
written by structural recursion on the character list, it takes an explicit
fuel argument; every call site supplies fuel `length + 1`, which is enough for
scanners that consume at least one character per step, so the fuel never runs
out on those calls.
-/

namespace BlogAuto

/-- Characters matched by the `re` module's `\s` class on the ASCII texts this
program manipulates (space, tab, newline, carriage return, vertical tab,
form feed). -/
def pyIsSpace (c : Char) : Bool :=
  c = ' ' || c = '\t' || c = '\n' || c = '\r' || c = Char.ofNat 11 || c = Char.ofNat 12

/-- Python `str.strip()` on a character list. -/
def stripChars (cs : List Char) : List Char :=
  ((cs.dropWhile pyIsSpace).reverse.dropWhile pyIsSpace).reverse

/-- Python `str.strip()`. -/
def pyStrip (s : String) : String :=
  ⟨stripChars s.toList⟩

/-- Python `str.rstrip(set)`: drop trailing characters belonging to `set`. -/
def pyRstripSet (s : String) (set : List Char) : String :=
  ⟨(s.toList.reverse.dropWhile (fun c => set.contains c)).reverse⟩

/-- Python `str.strip(set)` with an explicit character set (used as
`.strip("-")` in the slug code). -/
def pyStripSet (s : String) (set : List Char) : String :=
  ⟨((s.toList.dropWhile (fun c => set.contains c)).reverse.dropWhile
      (fun c => set.contains c)).reverse⟩

/-- Replace every maximal whitespace run by a single space; the scanner for
`re.sub(r"\s+", " ", text)`.  The flag records whether the previous character
was part of a whitespace run. -/
def collapseWsAux : Bool → List Char → List Char
  | _, [] => []
  | inWs, c :: cs =>
    if pyIsSpace c then
      (if inWs then [] else [' ']) ++ collapseWsAux true cs
    else
      c :: collapseWsAux false cs

/-- Scanner for `re.sub(r"\s+", " ", text)`. -/
def collapseWs (s : String) : String :=
  ⟨collapseWsAux false s.toList⟩

/-- Replace every run of two or more copies of `t` by a single `t`; the
scanner for `re.sub(r"-{2,}", "-", slug)` (instantiated at `t = '-'`). -/
def collapseRunsAux (t : Char) : Bool → List Char → List Char
  | _, [] => []
  | inRun, c :: cs =>
    if c = t then
      (if inRun then [] else [t]) ++ collapseRunsAux t true cs
    else
      c :: collapseRunsAux t false cs

/-- Collapse runs of a repeated character, as `re.sub(r"-{2,}", "-", ...)`. -/
def collapseRuns (t : Char) (s : String) : String :=
  ⟨collapseRunsAux t false s.toList⟩

/-- Check `pat` against every suffix of the list. -/
def containsSubAux (pat : List Char) : List Char → Bool
  | [] => pat.isPrefixOf []
  | c :: cs => pat.isPrefixOf (c :: cs) || containsSubAux pat cs

/-- Substring containment, the model of Python's `sub in s`. -/
def containsSub (s sub : String) : Bool :=
  containsSubAux sub.toList s.toList

/-- ASCII word character, the `re` module's `\w` class on the ASCII texts this
program manipulates. -/
def isWordChar (c : Char) : Bool :=
  c.isAlphanum || c = '_'

/-- Case-insensitive match of a lowercase pattern against the front of a
character list, returning the remainder on success. -/
def matchCI : List Char → List Char → Option (List Char)
  | [], rest => some rest
  | _ :: _, [] => none
  | p :: ps, c :: rest => if c.toLower = p then matchCI ps rest else none

/-- Scanner for `re.sub(r"\b<word>\b", "", text, flags=re.IGNORECASE)`: delete
every whole-word, case-insensitive occurrence of the lowercase word `pat`.
The Boolean argument records whether the previous character was a word
character (for the `\b` test); scanning resumes after each deleted match, as
`re.sub` does. -/
def removeWordCIAux (pat : List Char) : Nat → Bool → List Char → List Char
  | 0, _, cs => cs
  | _ + 1, _, [] => []
  | f + 1, prevWord, c :: cs =>
    if !prevWord then
      match matchCI pat (c :: cs) with
      | some rest =>
        match rest with
        | [] => []
        | r :: _ =>
          if isWordChar r then
            c :: removeWordCIAux pat f (isWordChar c) cs
          else
            removeWordCIAux pat f true rest
      | none => c :: removeWordCIAux pat f (isWordChar c) cs
    else
      c :: removeWordCIAux pat f (isWordChar c) cs

/-- Delete whole-word case-insensitive occurrences of `pat` (lowercase) in
`s`, as `re.sub(r"\b<pat>\b", "", s, flags=re.IGNORECASE)`. -/
def removeWordCI (s : String) (pat : String) : String :=
  ⟨removeWordCIAux pat.toList (s.toList.length + 1) false s.toList⟩

/-- Scanner for `re.sub(r"\s+[-|:]\s+", " - ", cleaned)` applied, as in the
source, to a string whose whitespace runs were already collapsed to single
spaces. -/
def dashFixAux : Nat → List Char → List Char
  | 0, cs => cs
  | _ + 1, [] => []
  | f + 1, ' ' :: c :: ' ' :: rest =>
    if c = '-' || c = '|' || c = ':' then
      ' ' :: '-' :: ' ' :: dashFixAux f rest
    else
      ' ' :: dashFixAux f (c :: ' ' :: rest)
  | f + 1, c :: cs => c :: dashFixAux f cs

/-- Normalisation of spaced separators, as `re.sub(r"\s+[-|:]\s+", " - ", s)`
on a whitespace-collapsed string. -/
def dashFix (s : String) : String :=
  ⟨dashFixAux (s.toList.length + 1) s.toList⟩

/-- Source `remove_free_words`: delete whole-word "free" (any case), collapse
whitespace and strip, then normalise spaced separators and strip again. -/
def remove_free_words (text : String) : String :=
  let cleaned := removeWordCI text "free"
  let cleaned := pyStrip (collapseWs cleaned)
  let cleaned := pyStrip (dashFix cleaned)
  cleaned

/-- Matcher for the compiled pattern `_WOOCOMMERCE_TYPO_RE` at the current
position (the position's `\b` precondition is checked by the caller):
`\bwoo\s*com+\s*er(?:ce|se)\b` case-insensitively.  The literal alternatives
`woocomerce` / `woocommerse` of the source pattern are instances of this first
alternative, so the single matcher is equivalent to the alternation.  Returns
the remainder after the match. -/
def matchWooTypo (cs : List Char) : Option (List Char) :=
  match matchCI "woo".toList cs with
  | none => none
  | some r1 =>
    let r1 := r1.dropWhile pyIsSpace
    match matchCI "co".toList r1 with
    | none => none
    | some r2 =>
      let ms := r2.takeWhile (fun c => c.toLower = 'm')
      if ms.isEmpty then none
      else
        let r3 := (r2.drop ms.length).dropWhile pyIsSpace
        match matchCI "er".toList r3 with
        | none => none
        | some r4 =>
          match matchCI "ce".toList r4 with
          | some r5 =>
            match r5 with
            | [] => some []
            | c :: _ => if isWordChar c then none else some r5
          | none =>
            match matchCI "se".toList r4 with
            | some r5 =>
              match r5 with
              | [] => some []
              | c :: _ => if isWordChar c then none else some r5
            | none => none

/-- Scanner for `_WOOCOMMERCE_TYPO_RE.sub(replacement, text)`. -/
def wooFixAux (repl : List Char) : Nat → Bool → List Char → List Char
  | 0, _, cs => cs
  | _ + 1, _, [] => []
  | f + 1, prevWord, c :: cs =>
    if !prevWord then
      match matchWooTypo (c :: cs) with
      | some rest => repl ++ wooFixAux repl f true rest
      | none => c :: wooFixAux repl f (isWordChar c) cs
    else
      c :: wooFixAux repl f (isWordChar c) cs

/-- Source `normalize_woocommerce_spelling`: rewrite common WooCommerce
misspellings (and spaced variants) to the canonical spelling. -/
def normalize_woocommerce_spelling (text : String) (proper_case : Bool) : String :=
  if text = "" then ""
  else
    let repl := if proper_case then "WooCommerce" else "woocommerce"
    ⟨wooFixAux repl.toList (text.toList.length + 1) false text.toList⟩

/-- Source `clamp_spaces`: collapse whitespace runs and strip. -/
def clamp_spaces (text : String) : String :=
  pyStrip (collapseWs text)

/-- Scanner for `re.sub(r"<[^>]+>", "", text)`: remove HTML tags.  A `<` with
no later `>`, or immediately followed by `>`, is not a match and stays. -/
def stripTagsAux : Nat → List Char → List Char
  | 0, cs => cs
  | _ + 1, [] => []
  | f + 1, c :: cs =>
    if c = '<' then
      let pre := cs.takeWhile (fun d => d ≠ '>')
      match cs.drop pre.length with
      | '>' :: tail =>
        if pre.isEmpty then c :: stripTagsAux f cs else stripTagsAux f tail
      | _ => c :: stripTagsAux f cs
    else
      c :: stripTagsAux f cs

/-- Source `strip_html`: drop HTML tags and strip. -/
def strip_html (text : String) : String :=
  pyStrip ⟨stripTagsAux (text.toList.length + 1) text.toList⟩

/-- Source `is_empty_content`: true when the tag-stripped content is empty
after removing all whitespace. -/
def is_empty_content (content_html : String) : Bool :=
  ((strip_html content_html).toList.filter (fun c => !pyIsSpace c)).isEmpty

/-- Hex digit value, for numeric character references. -/
def hexVal (c : Char) : Option Nat :=
  if '0' ≤ c ∧ c ≤ '9' then some (c.toNat - '0'.toNat)
  else if 'a' ≤ c ∧ c ≤ 'f' then some (c.toNat - 'a'.toNat + 10)
  else if 'A' ≤ c ∧ c ≤ 'F' then some (c.toNat - 'A'.toNat + 10)
  else none

/-- Fold a digit list into a natural number given a digit reader. -/
def foldDigits (read : Char → Option Nat) (base : Nat) (cs : List Char) : Option Nat :=
  cs.foldl
    (fun acc c =>
      match acc, read c with
      | some n, some d => some (base * n + d)
      | _, _ => none)
    (some 0)

/-- Model of `html.unescape` restricted to the named entities and numeric
character references that can occur in this program's inputs; the stdlib
function covers the full HTML5 entity table, of which this is the common
subset.  Unrecognised `&` sequences are left unchanged. -/
def unescapeAux : Nat → List Char → List Char
  | 0, cs => cs
  | _ + 1, [] => []
  | f + 1, c :: cs =>
    if c = '&' then
      if "amp;".toList.isPrefixOf cs then '&' :: unescapeAux f (cs.drop 4)
      else if "lt;".toList.isPrefixOf cs then '<' :: unescapeAux f (cs.drop 3)
      else if "gt;".toList.isPrefixOf cs then '>' :: unescapeAux f (cs.drop 3)
      else if "quot;".toList.isPrefixOf cs then '"' :: unescapeAux f (cs.drop 5)
      else if "apos;".toList.isPrefixOf cs then Char.ofNat 39 :: unescapeAux f (cs.drop 5)
      else if "nbsp;".toList.isPrefixOf cs then Char.ofNat 160 :: unescapeAux f (cs.drop 5)
      else
        match cs with
        | '#' :: 'x' :: rest =>
          let ds := rest.takeWhile (fun d => (hexVal d).isSome)
          match rest.drop ds.length, foldDigits hexVal 16 ds with
          | ';' :: tail, some n =>
            if ds.isEmpty then c :: unescapeAux f cs
            else Char.ofNat n :: unescapeAux f tail
          | _, _ => c :: unescapeAux f cs
        | '#' :: rest =>
          let ds := rest.takeWhile (fun d => '0' ≤ d ∧ d ≤ '9')
          match rest.drop ds.length, foldDigits (fun d => if '0' ≤ d ∧ d ≤ '9' then some (d.toNat - '0'.toNat) else none) 10 ds with
          | ';' :: tail, some n =>
            if ds.isEmpty then c :: unescapeAux f cs
            else Char.ofNat n :: unescapeAux f tail
          | _, _ => c :: unescapeAux f cs
        | _ => c :: unescapeAux f cs
    else
      c :: unescapeAux f cs

/-- Model of `html.unescape` (see `unescapeAux`). -/
def py_unescape (s : String) : String :=
  ⟨unescapeAux (s.toList.length + 1) s.toList⟩

/-- Source `normalize_title`: strip HTML then unescape entities. -/
def normalize_title (title_html : String) : String :=
  py_unescape (strip_html title_html)

/-- Source `normalize_tag_name`: collapse whitespace, strip, cap at 80
characters. -/
def normalize_tag_name (tag : String) : String :=
  ⟨(pyStrip (collapseWs tag)).toList.take 80⟩

/-- Python `str.lower()` on the ASCII texts this program manipulates. -/
def pyLower (s : String) : String :=
  ⟨s.toList.map Char.toLower⟩

/-- Scanner for `re.sub(r"[^a-z0-9]+", "-", text)`: replace every maximal run
of characters outside `[a-z0-9]` with a single dash. -/
def dashifyAux : Bool → List Char → List Char
  | _, [] => []
  | inRun, c :: cs =>
    if ('a' ≤ c ∧ c ≤ 'z') ∨ ('0' ≤ c ∧ c ≤ '9') then
      c :: dashifyAux false cs
    else
      (if inRun then [] else ['-']) ++ dashifyAux true cs

/-- Source `slugify`: unescape and strip tags, remove "free" wording and
"official", lower-case, drop apostrophes and the stray `â` character, turn
non-alphanumeric runs into dashes, collapse dash runs and trim dashes. -/
def slugify (text : String) : String :=
  let text := py_unescape (strip_html text)
  let text := remove_free_words text
  let text := removeWordCI text "official"
  let text := pyLower text
  let text : String := ⟨text.toList.filter (fun c => c ≠ Char.ofNat 39 ∧ c ≠ Char.ofNat 226)⟩
  let text : String := ⟨dashifyAux false text.toList⟩
  pyStripSet (collapseRuns '-' text) ['-']

/-- Python `str.split(sep)` for a single-character separator (empty pieces
preserved). -/
def splitOnCharAux (t : Char) : List Char → List Char → List (List Char)
  | [], acc => [acc.reverse]
  | c :: cs, acc =>
    if c = t then acc.reverse :: splitOnCharAux t cs [] else splitOnCharAux t cs (c :: acc)

/-- Python `s.split("-")`. -/
def splitDash (s : String) : List String :=
  (splitOnCharAux '-' s.toList []).map (fun cs => ⟨cs⟩)

/-- Python `sep.join(parts)`. -/
def joinWith (sep : String) : List String → String
  | [] => ""
  | [x] => x
  | x :: y :: xs => x ++ sep ++ joinWith sep (y :: xs)

/-- Source `generate_product_slug`: slugify the title, drop stop words, keep
at most 6 parts, cap the length at `max_len` and tidy dashes. -/
def generate_product_slug (title : String) (max_len : Nat) : String :=
  let raw := slugify title
  if raw = "" then ""
  else
    let stop : List String :=
      ["premium", "download", "the", "and", "or", "for", "with",
       "templates", "template", "wordpress", "woocommerce"]
    let allParts := splitDash raw
    let parts := allParts.filter (fun p => p ≠ "" && !stop.contains p)
    let parts := if parts.isEmpty then allParts.filter (fun p => p ≠ "") else parts
    let parts := parts.take 6
    let slug := joinWith "-" parts
    let slug := if slug.toList.length > max_len then
        pyRstripSet ⟨slug.toList.take max_len⟩ ['-']
      else slug
    pyStripSet (collapseRuns '-' slug) ['-']

/-- Source `title_len_ok`: the stripped title is 50 to 60 characters long. -/
def title_len_ok (title : String) : Bool :=
  let n := (pyStrip title).toList.length
  50 ≤ n && n ≤ 60

/-- Source `is_store_related_product_title`: keyword match on the lowered
title. -/
def is_store_related_product_title (title : String) : Bool :=
  let text := pyLower title
  ["woocommerce", "shop", "store", "cart", "checkout", "catalog",
   "product filter", "product search", "payment", "stripe", "paypal",
   "inventory", "pos", "affiliate"].any (fun term => containsSub text term)

/-- Source `is_quota_error`: the lowered message mentions quota or rate
exhaustion. -/
def is_quota_error (message : String) : Bool :=
  let m := pyLower message
  containsSub m "resourceexhausted" || containsSub m "quota" || containsSub m "429"

/-- Source `compact_error_message`: compact a raw error text to a short stable
code. -/
def compact_error_message (raw : Option String) : String :=
  let text := pyStrip (raw.getD "")
  if text = "" then ""
  else
    let lowered := pyLower text
    if containsSub lowered "api_key_invalid" || containsSub lowered "api key not valid" then
      "Invalid API Key"
    else if containsSub lowered "resource_exhausted" || containsSub lowered "resourceexhausted" then
      "Quota Limit"
    else if containsSub lowered "quota" || containsSub lowered "429" then
      "Quota Limit"
    else if containsSub lowered "missing product seo meta keys" then
      "SEO Keys Missing"
    else if containsSub lowered "could not generate product slug" then
      "Slug Failed"
    else if containsSub lowered "generated title did not match rules" then
      "Title Rule Error"
    else if containsSub lowered "generated seo meta did not match length/rules" then
      "SEO Rule Error"
    else if containsSub lowered "json" && containsSub lowered "invalid" then
      "Invalid AI Output"
    else
      "Process Error"

/-- Product status row (table `product_rewrite_status`).  Nullable text
columns are modelled as `String` with `""` for NULL — every read site in the
source immediately applies `or ""` / `or 0`, so the distinction is not
observable.  The four completion flags are the stored 0/1 integers. -/
structure ProductRow where
  status : String
  last_error : String
  old_title : String
  new_title : String
  permalink : String
  title_done : Nat
  desc_done : Nat
  seo_done : Nat
  slug_done : Nat
  last_title_error : String
  last_desc_error : String
  last_seo_error : String
  last_slug_error : String
  seo_title : String
  seo_description : String
  seo_focus_keyword : String
  old_slug : String
  new_slug : String
deriving DecidableEq

/-- Row with all fields empty / zero, the state of a freshly inserted row
before any field is set. -/
def ProductRow.blank : ProductRow :=
  ⟨"", "", "", "", "", 0, 0, 0, 0, "", "", "", "", "", "", "", "", ""⟩

/-- Source `compute_product_overall_status`: an explicitly stored terminal or
transit status wins; otherwise the status is derived from the four completion
flags, falling back to the stored text (or "pending" when blank). -/
def compute_product_overall_status (row : ProductRow) : String :=
  let current := pyStrip row.status
  if current = "skipped" then "skipped"
  else if current = "done" then "done"
  else if current = "processing" then "processing"
  else if current = "queued" then "queued"
  else if current = "error" then "error"
  else
    let title_done := row.title_done
    let desc_done := row.desc_done
    let seo_done := row.seo_done
    let slug_done := row.slug_done
    if title_done ≠ 0 ∧ desc_done ≠ 0 ∧ seo_done ≠ 0 ∧ slug_done ≠ 0 then "done"
    else if title_done ≠ 0 ∨ desc_done ≠ 0 ∨ seo_done ≠ 0 ∨ slug_done ≠ 0 then "partial"
    else if current = "" then "pending" else current

/-- JSON value, the model of what `json.loads` produces.  Numbers are
restricted to integers: none of the structured payloads this program
exchanges carries fractions. -/
inductive JVal where
  | jstr (s : String)
  | jnum (n : Int)
  | jbool (b : Bool)
  | jnull
  | jarr (xs : List JVal)
  | jobj (kvs : List (String × JVal))

/-- JSON whitespace accepted between tokens by `json.loads`. -/
def jsonWs (c : Char) : Bool :=
  c = ' ' || c = '\t' || c = '\n' || c = '\r'

/-- Short escape characters of JSON strings. -/
def escChar (e : Char) : Option Char :=
  if e = '"' then some '"'
  else if e = '\\' then some '\\'
  else if e = '/' then some '/'
  else if e = 'n' then some '\n'
  else if e = 't' then some '\t'
  else if e = 'r' then some '\r'
  else if e = 'b' then some (Char.ofNat 8)
  else if e = 'f' then some (Char.ofNat 12)
  else none

/-- Parse the body of a JSON string after its opening quote; returns the
decoded content and the remainder after the closing quote. -/
def parseStringBody : List Char → Option (List Char × List Char)
  | [] => none
  | '"' :: rest => some ([], rest)
  | '\\' :: e :: rest =>
    if e = 'u' then
      match rest with
      | h1 :: h2 :: h3 :: h4 :: rest2 =>
        match hexVal h1, hexVal h2, hexVal h3, hexVal h4 with
        | some a, some b, some c, some d =>
          (parseStringBody rest2).map
            (fun p => (Char.ofNat (((a * 16 + b) * 16 + c) * 16 + d) :: p.1, p.2))
        | _, _, _, _ => none
      | _ => none
    else
      match escChar e with
      | some c => (parseStringBody rest).map (fun p => (c :: p.1, p.2))
      | none => none
  | ['\\'] => none
  | c :: rest =>
    if c.toNat < 32 then none
    else (parseStringBody rest).map (fun p => (c :: p.1, p.2))

/-- Parse a JSON integer (an optional minus sign and digits, leading zeros
rejected as `json.loads` does). -/
def parseNumber (cs : List Char) : Option (Int × List Char) :=
  let p : Bool × List Char := match cs with
    | '-' :: t => (true, t)
    | _ => (false, cs)
  let ds := p.2.takeWhile (fun c => '0' ≤ c ∧ c ≤ '9')
  if ds.isEmpty then none
  else if ds.length > 1 ∧ ds.headD '0' = '0' then none
  else
    match foldDigits (fun d => if '0' ≤ d ∧ d ≤ '9' then some (d.toNat - '0'.toNat) else none) 10 ds with
    | some n => some ((if p.1 then -(n : Int) else (n : Int)), p.2.drop ds.length)
    | none => none

mutual

/-- Fueled recursive-descent JSON value parser; fuel `length + 1` always
suffices since every recursive step consumes input. -/
def parseValueF : Nat → List Char → Option (JVal × List Char)
  | 0, _ => none
  | f + 1, cs =>
    match cs.dropWhile jsonWs with
    | '"' :: rest => (parseStringBody rest).map (fun p => (.jstr ⟨p.1⟩, p.2))
    | '{' :: rest =>
      match rest.dropWhile jsonWs with
      | '}' :: rest2 => some (.jobj [], rest2)
      | _ => (parseMembersF f rest).map (fun p => (.jobj p.1, p.2))
    | '[' :: rest =>
      match rest.dropWhile jsonWs with
      | ']' :: rest2 => some (.jarr [], rest2)
      | _ => (parseElemsF f rest).map (fun p => (.jarr p.1, p.2))
    | 't' :: rest => if "rue".toList.isPrefixOf rest then some (.jbool true, rest.drop 3) else none
    | 'f' :: rest => if "alse".toList.isPrefixOf rest then some (.jbool false, rest.drop 4) else none
    | 'n' :: rest => if "ull".toList.isPrefixOf rest then some (.jnull, rest.drop 3) else none
    | other => (parseNumber other).map (fun p => (.jnum p.1, p.2))

/-- Members of a JSON object after the opening brace (non-empty case). -/
def parseMembersF : Nat → List Char → Option (List (String × JVal) × List Char)
  | 0, _ => none
  | f + 1, cs =>
    match cs.dropWhile jsonWs with
    | '"' :: rest =>
      match parseStringBody rest with
      | none => none
      | some (key, rest2) =>
        match rest2.dropWhile jsonWs with
        | ':' :: rest3 =>
          match parseValueF f rest3 with
          | none => none
          | some (v, rest4) =>
            match rest4.dropWhile jsonWs with
            | ',' :: rest5 => (parseMembersF f rest5).map (fun p => ((⟨key⟩, v) :: p.1, p.2))
            | '}' :: rest5 => some ([(⟨key⟩, v)], rest5)
            | _ => none
        | _ => none
    | _ => none

/-- Elements of a JSON array after the opening bracket (non-empty case). -/
def parseElemsF : Nat → List Char → Option (List JVal × List Char)
  | 0, _ => none
  | f + 1, cs =>
    match parseValueF f cs with
    | none => none
    | some (v, rest) =>
      match rest.dropWhile jsonWs with
      | ',' :: rest2 => (parseElemsF f rest2).map (fun p => (v :: p.1, p.2))
      | ']' :: rest2 => some ([v], rest2)
      | _ => none

end

/-- Model of `json.loads`: parse one JSON value and require only whitespace
after it. -/
def json_loads (s : String) : Option JVal :=
  let cs := s.toList
  match parseValueF (cs.length + 1) cs with
  | some (v, rest) => if (rest.dropWhile jsonWs).isEmpty then some v else none
  | none => none

/-- Source `extract_json`: `re.search(r"\{.*\}", text, re.DOTALL)` takes the
span from the first `{` to the last `}` (the greedy match), then `json.loads`
parses it; the result of a successful parse of such a span is an object.
The JSON decoder's own error text is abbreviated to a stable message. -/
def extract_json (text : String) : Except String (List (String × JVal)) :=
  let cs := text.toList
  let preLen := (cs.takeWhile (fun c => c ≠ '{')).length
  let sufLen := (cs.reverse.takeWhile (fun c => c ≠ '}')).length
  if preLen = cs.length ∨ sufLen = cs.length ∨ cs.length - sufLen ≤ preLen + 1 then
    .error "No JSON object found in model response."
  else
    let candidate : String := ⟨(cs.drop preLen).take (cs.length - sufLen - preLen)⟩
    match json_loads candidate with
    | some (.jobj kvs) => .ok kvs
    | _ => .error "Invalid JSON in model response."

/-- Python `dict` built by `json.loads` keeps the last value of a duplicated
key; `data.get(k)` looks that value up. -/
def jGet (kvs : List (String × JVal)) (k : String) : Option JVal :=
  (kvs.reverse.find? (fun kv => kv.1 == k)).map (fun kv => kv.2)

/-- Python truthiness for JSON values. -/
def jTruthy : JVal → Bool
  | .jstr s => s ≠ ""
  | .jnum n => n ≠ 0
  | .jbool b => b
  | .jnull => false
  | .jarr xs => !xs.isEmpty
  | .jobj kvs => !kvs.isEmpty

/-- Model of `data.get(k, "").strip()`: the default applies only when the key
is absent, and `.strip()` on a non-string raises (`AttributeError`). -/
def jGetStrStripped (kvs : List (String × JVal)) (k : String) : Except String String :=
  match jGet kvs k with
  | none => .ok (pyStrip "")
  | some (.jstr s) => .ok (pyStrip s)
  | some _ => .error "AttributeError: strip"

/-- Python `str(tag)` on a JSON value.  The container cases abbreviate the
`repr` text; no claim evaluates them. -/
def pyStr : JVal → String
  | .jstr s => s
  | .jnum n => toString n
  | .jbool b => if b then "True" else "False"
  | .jnull => "None"
  | .jarr _ => "[...]"
  | .jobj _ => "\x7b...\x7d"

/-- Source tag normalisation in `perform_generation`: a string `tags` value is
split on commas, stripped and filtered; anything else is kept as-is. -/
def normTagsVal : JVal → JVal
  | .jstr s =>
    .jarr (((splitOnCharAux ',' s.toList []).map (fun cs => pyStrip ⟨cs⟩)).filter
      (fun t => t ≠ "") |>.map (fun t => .jstr t))
  | v => v

/-- Python `for tag in tags`: lists iterate elements, strings iterate
characters, dicts iterate keys, scalars raise `TypeError`. -/
def jIter : JVal → Except String (List JVal)
  | .jarr xs => .ok xs
  | .jstr s => .ok (s.toList.map (fun c => .jstr ⟨[c]⟩))
  | .jobj kvs => .ok (kvs.map (fun kv => .jstr kv.1))
  | _ => .error "TypeError: not iterable"

/-- Python `", ".join(tags)`: every element must be a string. -/
def joinStrTags : List JVal → Except String String
  | [] => .ok ""
  | .jstr s :: rest =>
    match joinStrTags rest with
    | .ok "" => if rest.isEmpty then .ok s else .ok (s ++ ", ")
    | .ok r => .ok (s ++ ", " ++ r)
    | .error e => .error e
  | _ => .error "TypeError: join"

/-- Source `choose_default_model`: fixed preference order, falling back to
the first available model. -/
def choose_default_model (models : List String) : String :=
  let preferred : List String :=
    ["models/gemini-1.5-flash-latest", "models/gemini-1.5-pro-latest",
     "models/gemini-1.5-flash", "models/gemini-1.5-pro", "models/gemini-1.0-pro"]
  match preferred.find? (fun name => models.contains name) with
  | some name => name
  | none => models.headD ""

/-- The source's test for a model-name error: the message mentions `models/`
and `not found`. -/
def isModelNotFoundError (msg : String) : Bool :=
  containsSub msg "models/" && containsSub msg "not found"

/-- One configured key's observable behaviour for a single
`MultiKeyGemini.generate` call: the outcome of the first generation attempt,
of `list_models()` (consulted only on a model-name error), and of the retry
with the corrected model.  Exceptions are `.error` with the exception's
message. -/
structure KeyBehavior where
  genFirst : Except String String
  modelsList : Except String (List String)
  genRetry : Except String String

/-- The key loop of `MultiKeyGemini.generate`, carrying the last quota
exception (`last_exc`).  The model-name branch persists the corrected name to
the runtime/config, which has no observable effect within one call and is
omitted. -/
def generateLoop : List KeyBehavior → Option String → Except String String
  | [], lastExc =>
    match lastExc with
    | some e => .error e
    | none => .error "Gemini API key is missing."
  | k :: rest, _lastExc =>
    match k.genFirst with
    | .ok text => .ok text
    | .error msg =>
      if isModelNotFoundError msg then
        match k.modelsList with
        | .error e => .error e
        | .ok models =>
          let picked := choose_default_model models
          if picked ≠ "" then k.genRetry
          else .error msg
      else if is_quota_error msg then
        generateLoop rest (some msg)
      else .error msg

/-- Source `MultiKeyGemini.generate`: raise when no keys are configured,
otherwise run the key loop. -/
def multiKeyGenerate (keys : List KeyBehavior) : Except String String :=
  if keys.isEmpty then .error "Gemini API key is missing."
  else generateLoop keys none

/-- A key whose first attempt fails with a quota error (and not with the
model-name pattern, which the source checks first). -/
def quotaOnlyFailure (k : KeyBehavior) : Bool :=
  match k.genFirst with
  | .error m => is_quota_error m && !isModelNotFoundError m
  | .ok _ => false

/-- Python `str.replace(pat, repl)` for a non-empty pattern, scanning left to
right without overlap. -/
def pyReplaceAux (pat repl : List Char) : Nat → List Char → List Char
  | 0, cs => cs
  | _ + 1, [] => []
  | f + 1, c :: cs =>
    if pat.isPrefixOf (c :: cs) then
      repl ++ pyReplaceAux pat repl f ((c :: cs).drop pat.length)
    else
      c :: pyReplaceAux pat repl f cs

/-- Python `s.replace(pat, repl)`. -/
def pyReplace (s pat repl : String) : String :=
  ⟨pyReplaceAux pat.toList repl.toList (s.toList.length + 1) s.toList⟩

/-- Source constant `DEFAULT_CUSTOM_PROMPT` (already `.strip()`-ed at its
definition). -/
def DEFAULT_CUSTOM_PROMPT : String :=
  "Required GPLMama context (use when relevant, stay factual, no overselling):\n" ++
  "GPLMama is Bangladesh\x27s affordable hub for premium digital assets. We offer lifetime access to 2,200+ assets for a one-time fee of BDT 149 with no ads or hassles. The library includes WordPress themes, plugins, WooCommerce plugins, and Shopify themes. Files are original and unmodified. New files are added regularly. The GPL model is legal and safe. We support freelancers, small businesses, and agencies. There is a commercial license for client work and resale. Local support and video guides are available.\n" ++
  "\n" ++
  "Writing rules (apply throughout):\n" ++
  "- Write about 2000 words.\n" ++
  "- Use simple, plain language and short sentences.\n" ++
  "- Avoid AI-sounding phrases and cliches (no \"let\x27s dive in\", \"game-changing\", \"unlock potential\").\n" ++
  "- Be direct and concise. Remove filler words.\n" ++
  "- Keep the tone natural and conversational. It is ok to start sentences with \"and\" or \"but\".\n" ++
  "- Avoid hype, buzzwords, and overpromises.\n" ++
  "- Keep grammar simple and readable.\n" ++
  "- Remove fluff and extra adjectives.\n" ++
  "- Make every sentence clear and easy to understand.\n" ++
  "- Use transitions for flow and break long paragraphs into smaller ones.\n" ++
  "- Keep the tone friendly, helpful, and real (not robotic or academic).\n" ++
  "\n" ++
  "Uniqueness and expertise:\n" ++
  "- Derive 10 key questions a writer would ask to make this unique.\n" ++
  "- Answer those questions inside the post without listing them.\n" ++
  "- Include practical examples, light storytelling, or mini case scenarios where useful."

/-- Source `build_prompt`: the article-generation prompt, interpolating the
title, the sampled inbound links and the (possibly custom) instructions. -/
def build_prompt (title : String) (inbound_links : List String) (custom_prompt : String) : String :=
  let inbound_text := joinWith "\n" (inbound_links.map (fun link => "- " ++ link))
  let required_prompt := pyReplace DEFAULT_CUSTOM_PROMPT "\x7btitle\x7d" title
  let custom_text :=
    if custom_prompt ≠ "" then
      let cleaned := pyStrip (pyReplace custom_prompt "\x7btitle\x7d" title)
      if cleaned ≠ "" ∧ cleaned ≠ required_prompt then
        "\nAdditional instructions:\n" ++ cleaned ++ "\n"
      else ""
    else ""
  pyStrip
    ("\nYou are writing a professional, SEO-focused micro blog post that answers one clear question.\n" ++
     "\n" ++
     "Question/Topic: " ++ title ++ "\n" ++
     "Method: Simple PAA content structure\n" ++
     "- One question = one page (non-negotiable). Do not combine multiple questions into one article.\n" ++
     "- About 2000 words total.\n" ++
     "- Simple, direct language. Short sentences.\n" ++
     "- No hype, no buzzwords, no clichÃ©s.\n" ++
     "- No special characters or emojis.\n" ++
     "- Do not use headings like Conclusion or Final thoughts.\n" ++
     "- Start with a short intro paragraph (1-2 sentences), not a title heading.\n" ++
     "- Use clear H2 and H3 structure.\n" ++
     "- Put the direct answer in the first 40 words after the H2 (required).\n" ++
     "- Add 2 to 3 related H2 sub-questions (People Also Ask style).\n" ++
     "- Under each H2, use short H3s for supporting details, steps, or examples.\n" ++
     "- Use lists where helpful.\n" ++
     "- Keep tone natural, helpful, and human.\n" ++
     "- Stay on topic and do not add unrelated content.\n" ++
     "- Make the content valuable and practical for the reader.\n" ++
     "- Make my role clear in the narrative (the brand/operator behind the site) without overpromising.\n" ++
     "- Ensure each post is distinct in structure and examples, even with similar topics.\n" ++
     "- Do not show raw URLs as text. Use anchor text for all links.\n" ++
     "- Add a 1-line TL;DR near the top or bottom.\n" ++
     "\n" ++
     "Internal workflow:\n" ++
     "- Derive 6 to 8 questions a writer would ask to make this unique.\n" ++
     "- Answer those questions inside the post content without showing them.\n" ++
     "\n" ++
     "Links:\n" ++
     "- Include exactly 2 outbound links to reputable, live sources.\n" ++
     "- Include exactly 2 inbound links from this list:\n" ++
     "- The first inbound link must be the main guide (Medium or main site) and be contextual.\n" ++
     "- The second inbound link should point to a related PAA post (contextual).\n" ++
     inbound_text ++ "\n" ++
     "- Include exactly 1 contextual link to gplmama.com:\n" ++
     "  - Place it after explaining GPL.\n" ++
     "  - Use neutral anchor text (not exact-match/affiliate language).\n" ++
     "  - Do not place it early in the article.\n" ++
     "  - Add rel=\"nofollow\" to that link.\n" ++
     "\n" ++
     "SEO:\n" ++
     "- Provide a meta title (50-60 chars).\n" ++
     "- Provide a meta description (140-160 chars).\n" ++
     "- Provide 5 to 8 tags.\n" ++
     "- Add FAQ schema (JSON-LD) with exactly 1 question and a 2-3 line answer.\n" ++
     "- The FAQ question must match the post title/question.\n" ++
     "\n" ++
     "Output format:\n" ++
     "Return only valid JSON with these keys:\n" ++
     "- content_html\n" ++
     "- meta_title\n" ++
     "- meta_description\n" ++
     "- tags (array of strings)\n" ++
     "Required site and writing requirements:\n" ++
     required_prompt ++ "\n" ++
     custom_text ++ "\n")

/-- Source `build_metadata_prompt`: the metadata-only follow-up prompt. -/
def build_metadata_prompt (title content_html : String) : String :=
  let summary := pyStrip (collapseWs (strip_html content_html))
  let summary : String := ⟨summary.toList.take 1200⟩
  pyStrip
    ("\nYou are preparing SEO metadata for this blog post.\n" ++
     "\n" ++
     "Title: " ++ title ++ "\n" ++
     "Content summary: " ++ summary ++ "\n" ++
     "\n" ++
     "Rules:\n" ++
     "- Meta title 50 to 60 characters.\n" ++
     "- Meta description 140 to 160 characters.\n" ++
     "- 5 to 8 short tags, no hashtags.\n" ++
     "\n" ++
     "Output format:\n" ++
     "Return only valid JSON with these keys:\n" ++
     "- meta_title\n" ++
     "- meta_description\n" ++
     "- tags (array of strings)\n")

/-- Source `build_json_repair_prompt`: sends the bad output back asking for
corrected JSON. -/
def build_json_repair_prompt (base_prompt bad_response : String) : String :=
  pyStrip
    ("\nYou returned invalid JSON. Fix it.\n" ++
     "\n" ++
     "Original instructions:\n" ++
     base_prompt ++ "\n" ++
     "\n" ++
     "Your previous response:\n" ++
     bad_response ++ "\n" ++
     "\n" ++
     "Return only valid JSON with the required keys.\n")

/-- Outcome of a `find_or_create_tag` call: a tag id (or none), an HTTP error
with its status code, or any other exception. -/
inductive TagRes where
  | ok (id : Option Nat)
  | httpErr (code : Nat) (msg : String)
  | exc (msg : String)

/-- Observable effects of a post-pipeline run against its collaborators: the
CMS (`get_post`, `update_post`, `find_or_create_tag`), the status store, the
model client, the read cache and the generation log. -/
inductive Eff where
  | getPost (post_id : Nat)
  | updateStatus (post_id : Nat) (status : String) (error : Option String)
  | geminiCall (prompt : String)
  | findOrCreateTag (name : String)
  | updatePost (post_id : Nat) (content_html meta_title meta_description : String)
      (tag_ids : List Nat)
  | invalidateCache
  | logGeneration (post_id : Nat) (prompt response meta_title meta_description tags : String)
  | submitTask (post_id : Nat)

/-- Environment of one `perform_generation` run: the fetched post, the
successive `is_canceled` reads, the successive model-call outcomes, the
tag-resolution outcomes, the sampled inbound links and the configured custom
prompt (the fields of `runtime` the run reads). -/
structure PostEnv where
  post_id : Nat
  fetchPost : Except String (String × String)
  canceled : Nat → Bool
  gem : Nat → Except String String
  tagResult : String → TagRes
  inboundSample : List String
  custom_prompt : String

/-- The generate / parse / repair-once / parse pattern of the source (the
same block appears for the primary post prompt, the metadata prompt and each
product-step prompt): call the model, try `extract_json`, on failure send one
repair prompt and parse that response; a second failure (or a model-call
failure) propagates.  Returns the recorded model-call effects and, on
success, the parsed object, the prompt last sent, the last response text and
the next call index. -/
def genParse (gem : Nat → Except String String) (n : Nat) (prompt : String) :
    List Eff × Except String (List (String × JVal) × String × String × Nat) :=
  match gem n with
  | .error m => ([Eff.geminiCall prompt], .error m)
  | .ok r =>
    match extract_json r with
    | .ok d => ([Eff.geminiCall prompt], .ok (d, prompt, r, n + 1))
    | .error _ =>
      let rp := build_json_repair_prompt prompt r
      match gem (n + 1) with
      | .error m => ([Eff.geminiCall prompt, Eff.geminiCall rp], .error m)
      | .ok r2 =>
        match extract_json r2 with
        | .ok d => ([Eff.geminiCall prompt, Eff.geminiCall rp], .ok (d, rp, r2, n + 2))
        | .error m => ([Eff.geminiCall prompt, Eff.geminiCall rp], .error m)

/-- The tag-resolution loop of `perform_generation`: normalise each tag name,
skip empties, call `find_or_create_tag`; a 400-class HTTP rejection skips the
tag, any other error is fatal; non-null ids are collected in order. -/
def resolveTags (tagResult : String → TagRes) : List JVal → List Eff × Except String (List Nat)
  | [] => ([], .ok [])
  | tag :: rest =>
    let tag_name := normalize_tag_name (pyStr tag)
    if tag_name = "" then resolveTags tagResult rest
    else
      match tagResult tag_name with
      | .httpErr code m =>
        if code = 400 then
          let p := resolveTags tagResult rest
          (Eff.findOrCreateTag tag_name :: p.1, p.2)
        else ([Eff.findOrCreateTag tag_name], .error m)
      | .exc m => ([Eff.findOrCreateTag tag_name], .error m)
      | .ok id =>
        let p := resolveTags tagResult rest
        (Eff.findOrCreateTag tag_name :: p.1,
         p.2.map (fun ids => match id with | some i => i :: ids | none => ids))

/-- Tail of `perform_generation` after the metadata fields are settled: the
second cancellation check, the empty-content guard, tag resolution, the third
cancellation check, the CMS write, cache invalidation, the log entry and the
final `done` status.  The global meta-key assignments of the source have no
observable effect in this model and are omitted. -/
def performTail (env : PostEnv) (prompt response_text content_html meta_title
    meta_description : String) (tagList : List JVal) : List Eff × Except String Unit :=
  if env.canceled 2 then ([], .ok ())
  else if content_html = "" then ([], .error "Model returned empty content.")
  else
    let tr := resolveTags env.tagResult tagList
    match tr.2 with
    | .error m => (tr.1, .error m)
    | .ok tag_ids =>
      if env.canceled 3 then (tr.1, .ok ())
      else
        match joinStrTags tagList with
        | .error m =>
          (tr.1 ++ [Eff.updatePost env.post_id content_html meta_title meta_description tag_ids,
                    Eff.invalidateCache], .error m)
        | .ok tagStr =>
          (tr.1 ++ [Eff.updatePost env.post_id content_html meta_title meta_description tag_ids,
                    Eff.invalidateCache,
                    Eff.logGeneration env.post_id prompt response_text meta_title meta_description tagStr,
                    Eff.updateStatus env.post_id "done" none], .ok ())

/-- Source `perform_generation`: fetch the post; stop with a `done` +
"Skipped" note when content is already present; otherwise build the prompt,
generate and parse (with one repair), fill missing metadata through the
metadata prompt (same repair contract), resolve tags, persist to the CMS,
invalidate the cache, log and mark `done`.  Cancellation is observed at the
source's check points; any exception is returned as `.error`. -/
def perform_generation (env : PostEnv) : List Eff × Except String Unit :=
  match env.fetchPost with
  | .error m => ([Eff.getPost env.post_id], .error m)
  | .ok (titleRaw, current_html) =>
    let e0 := [Eff.getPost env.post_id]
    let title := normalize_title titleRaw
    if !is_empty_content current_html then
      (e0 ++ [Eff.updateStatus env.post_id "done" (some "Skipped: content already exists.")],
       .ok ())
    else if env.canceled 1 then (e0, .ok ())
    else
      let prompt := build_prompt title env.inboundSample env.custom_prompt
      let pp := genParse env.gem 0 prompt
      match pp.2 with
      | .error m => (e0 ++ pp.1, .error m)
      | .ok (data, _fp, response_text, n1) =>
        match jGetStrStripped data "content_html" with
        | .error m => (e0 ++ pp.1, .error m)
        | .ok content_html =>
          match jGetStrStripped data "meta_title" with
          | .error m => (e0 ++ pp.1, .error m)
          | .ok meta_title0 =>
            match jGetStrStripped data "meta_description" with
            | .error m => (e0 ++ pp.1, .error m)
            | .ok meta_description0 =>
              let tagsVal := normTagsVal ((jGet data "tags").getD (.jarr []))
              if meta_title0 = "" ∨ meta_description0 = "" ∨ jTruthy tagsVal = false then
                let metadata_prompt := build_metadata_prompt title content_html
                let mp := genParse env.gem n1 metadata_prompt
                match mp.2 with
                | .error m => (e0 ++ pp.1 ++ mp.1, .error m)
                | .ok (metadata, _mfp, _mresp, _n2) =>
                  match jGetStrStripped metadata "meta_title" with
                  | .error m => (e0 ++ pp.1 ++ mp.1, .error m)
                  | .ok mt2 =>
                    match jGetStrStripped metadata "meta_description" with
                    | .error m => (e0 ++ pp.1 ++ mp.1, .error m)
                    | .ok md2 =>
                      let meta_title := if mt2 ≠ "" then mt2 else meta_title0
                      let meta_description := if md2 ≠ "" then md2 else meta_description0
                      let new_tags := normTagsVal ((jGet metadata "tags").getD (.jarr []))
                      let tagsVal := if jTruthy new_tags then new_tags else tagsVal
                      match jIter tagsVal with
                      | .error m => (e0 ++ pp.1 ++ mp.1, .error m)
                      | .ok tagList =>
                        let t := performTail env prompt response_text content_html
                          meta_title meta_description tagList
                        (e0 ++ pp.1 ++ mp.1 ++ t.1, t.2)
              else
                match jIter tagsVal with
                | .error m => (e0 ++ pp.1, .error m)
                | .ok tagList =>
                  let t := performTail env prompt response_text content_html
                    meta_title0 meta_description0 tagList
                  (e0 ++ pp.1 ++ t.1, t.2)

/-- Source `process_post`: skip canceled posts, mark `processing`, run
`perform_generation`, and on any exception store status `error` with the
exception's message. -/
def process_post (env : PostEnv) : List Eff :=
  if env.canceled 0 then []
  else
    let p := perform_generation env
    Eff.updateStatus env.post_id "processing" none ::
      (p.1 ++
        match p.2 with
        | .ok _ => []
        | .error m => [Eff.updateStatus env.post_id "error" (some m)])

/-- Source `enqueue_post`, as a function of the stored status read for the
post (`""` when no row exists): an already `queued`/`processing` post is
rejected with no write and no submission; otherwise the status is set to
`queued` and one pipeline task is submitted. -/
def enqueue_post (post_id : Nat) (current : String) : Bool × List Eff :=
  if current = "queued" ∨ current = "processing" then (false, [])
  else (true, [Eff.updateStatus post_id "queued" none, Eff.submitTask post_id])

/-- Effect classifier: a worker-pool submission. -/
def isSubmit : Eff → Bool
  | .submitTask _ => true
  | _ => false

/-- Post status row (table `post_status`); `last_error` is stored raw
(nullable), `generated_at` is the write timestamp. -/
structure PostStatusRow where
  status : String
  generated_at : Option String
  last_error : Option String

/-- Source `update_status` upsert: every write replaces status, timestamp and
error, whatever row (if any) was there. -/
def apply_update_status (status : String) (error : Option String) (now : String) :
    PostStatusRow :=
  { status := status, generated_at := some now, last_error := error }

/-- The per-post status decoration of `build_index_context`: without a status
row the status is derived from emptiness; a non-empty `last_error` on a
non-`canceled` row overrides the displayed status to `error`. -/
def post_display_status (statusRow : Option PostStatusRow) (content_html : String) : String :=
  let empty := is_empty_content content_html
  let p : String × Option String :=
    match statusRow with
    | some row => (row.status, row.last_error)
    | none => ((if empty then "pending" else "done"), none)
  match p.2 with
  | some e => if e ≠ "" ∧ p.1 ≠ "canceled" then "error" else p.1
  | none => p.1

/-- C3 witness environment: a post with a non-empty body. -/
def envFilledPost : PostEnv :=
  { post_id := 7
    fetchPost := .ok ("A title", "<p>existing body</p>")
    canceled := fun _ => false
    gem := fun _ => .error "model should not be called"
    tagResult := fun _ => .ok (some 1)
    inboundSample := []
    custom_prompt := "" }

/-- C4 witness environment: the primary response is not JSON, the repair
response is also not JSON (fatal case). -/
def envRepairFail : PostEnv :=
  { post_id := 11
    fetchPost := .ok ("How to test", "")
    canceled := fun _ => false
    gem := fun n => if n = 0 then .ok "sorry, here is prose" else .ok "still prose"
    tagResult := fun _ => .ok (some 3)
    inboundSample := ["https://gplmama.com/pricing/"]
    custom_prompt := "" }

/-- C4 witness environment: the primary response is not JSON, the repair
response parses with all required fields. -/
def envRepairOk : PostEnv :=
  { post_id := 12
    fetchPost := .ok ("How to test", "")
    canceled := fun _ => false
    gem := fun n =>
      if n = 0 then .ok "sorry, here is prose"
      else .ok "\x7b\"content_html\": \"<p>Repaired body</p>\", \"meta_title\": \"Repaired title\", \"meta_description\": \"Repaired desc\", \"tags\": [\"alpha\", \"beta\"]\x7d"
    tagResult := fun _ => .ok (some 3)
    inboundSample := ["https://gplmama.com/pricing/"]
    custom_prompt := "" }

/-- A WooCommerce product as read through the REST client: the fields this
program consumes (`meta_data` is reduced to its key list, which is all
`wc_meta_has` inspects; categories carry their slug and name). -/
structure WCProduct where
  id : Nat
  name : String
  permalink : String
  slug : String
  categories : List (String × String)
  meta_keys : List String

/-- Source `wc_is_membership_product`: some category has slug "membership"
or a name containing "membership" (both stripped and lowered). -/
def wc_is_membership_product (product : WCProduct) : Bool :=
  product.categories.any (fun cat =>
    pyLower (pyStrip cat.1) = "membership" ||
    containsSub (pyLower (pyStrip cat.2)) "membership")

/-- Source `wc_meta_has`: the product's meta_data contains the key. -/
def wc_meta_has (product : WCProduct) (key : String) : Bool :=
  product.meta_keys.contains key

/-- Source `update_product_status` as a row transformer.  The upsert replaces
status, timestamp and (compacted) error; `old_title`, `new_title` and
`permalink` are replaced only by non-empty values (the `CASE WHEN excluded
... != ''` clauses); a fresh insert starts from the column defaults.  The
`updated_at` timestamp is not modelled. -/
def update_product_status (row : Option ProductRow) (status : String)
    (error : Option String) (old_title new_title permalink : String) : ProductRow :=
  match row with
  | none =>
    { ProductRow.blank with
        status := status
        last_error := compact_error_message error
        old_title := old_title
        new_title := new_title
        permalink := permalink }
  | some r =>
    { r with
        status := status
        last_error := compact_error_message error
        old_title := if old_title ≠ "" then old_title else r.old_title
        new_title := if new_title ≠ "" then new_title else r.new_title
        permalink := if permalink ≠ "" then permalink else r.permalink }

/-- Source `update_product_piece_flags` as a row transformer: merge by field —
only the supplied fields are written (error fields compacted), the rest stay
untouched.  Argument order follows the source's keyword list grouped as
flags, errors, SEO values, slugs. -/
def update_product_piece_flags (r : ProductRow)
    (title_done desc_done seo_done slug_done : Option Nat)
    (last_title_error last_desc_error last_seo_error last_slug_error : Option String)
    (seo_title seo_description seo_focus_keyword old_slug new_slug : Option String) :
    ProductRow :=
  { r with
      title_done := title_done.getD r.title_done
      desc_done := desc_done.getD r.desc_done
      seo_done := seo_done.getD r.seo_done
      slug_done := slug_done.getD r.slug_done
      last_title_error := (last_title_error.map (fun e => compact_error_message (some e))).getD r.last_title_error
      last_desc_error := (last_desc_error.map (fun e => compact_error_message (some e))).getD r.last_desc_error
      last_seo_error := (last_seo_error.map (fun e => compact_error_message (some e))).getD r.last_seo_error
      last_slug_error := (last_slug_error.map (fun e => compact_error_message (some e))).getD r.last_slug_error
      seo_title := seo_title.getD r.seo_title
      seo_description := seo_description.getD r.seo_description
      seo_focus_keyword := seo_focus_keyword.getD r.seo_focus_keyword
      old_slug := old_slug.getD r.old_slug
      new_slug := new_slug.getD r.new_slug }

/-- A row's stored status is in the already-progressed set checked by
discovery. -/
def progressedStatus (existing : Option ProductRow) : Bool :=
  match existing with
  | some r => r.status == "done" || r.status == "partial" || r.status == "skipped"
  | none => false

/-- Source `handle_discovered` (phase 1 of `bulk_rewrite_products`), as a
transformer of the product's status row: rows already `done`/`partial`/
`skipped` are left untouched (checked before the exclusion rules); then the
excluded product id 3718 and membership-category products are marked
`skipped`, and everything else `queued`. -/
def handle_discovered (product : WCProduct) (existing : Option ProductRow) :
    Option ProductRow :=
  if product.id = 0 then existing
  else if progressedStatus existing then existing
  else
    let old_title := clamp_spaces product.name
    let permalink := product.permalink
    if product.id = 3718 then
      some (update_product_status existing "skipped"
        (some "Skipped: excluded product_id 3718.") old_title "" permalink)
    else if wc_is_membership_product product then
      some (update_product_status existing "skipped"
        (some "Skipped: membership category.") old_title "" permalink)
    else
      some (update_product_status existing "queued" none old_title "" permalink)

/-- Source `sync_products_to_db`'s inner `upsert`, as a row transformer: the
exclusion rules are checked first (an excluded product is always (re)marked
`skipped` with its `old_slug` refreshed); then an already-`skipped` row is
left alone; a `done`/`partial` row only gets `old_title`/`permalink`/
`old_slug` refreshed (progress is never overwritten); anything else is
marked `pending`. -/
def sync_upsert (product : WCProduct) (existing : Option ProductRow) :
    Option ProductRow :=
  if product.id = 0 then existing
  else
    let old_title := clamp_spaces product.name
    let permalink := product.permalink
    let old_slug := clamp_spaces product.slug
    if product.id = 3718 ∨ wc_is_membership_product product then
      let reason :=
        if product.id = 3718 then "Skipped: excluded product_id 3718."
        else "Skipped: membership category."
      let r := update_product_status existing "skipped" (some reason) old_title "" permalink
      some (update_product_piece_flags r none none none none none none none none
        none none none (some old_slug) none)
    else
      match existing with
      | some r =>
        if r.status = "skipped" then existing
        else if r.status = "done" ∨ r.status = "partial" then
          some (update_product_piece_flags
            { r with old_title := old_title, permalink := permalink }
            none none none none none none none none none none none (some old_slug) none)
        else
          some (update_product_piece_flags
            (update_product_status (some r) "pending" none old_title "" permalink)
            none none none none none none none none none none none (some old_slug) none)
      | none =>
        some (update_product_piece_flags
          (update_product_status none "pending" none old_title "" permalink)
          none none none none none none none none none none none (some old_slug) none)

/-- Collaborator outcomes consulted by `ensure_wc_product_meta`: the verify
fetch, the fallback write through the WP v2 product endpoint, and the
re-verify fetch. -/
structure MetaVerifyEnv where
  fetch1 : Except String WCProduct
  updateMetaOk : Bool
  fetch2 : Except String WCProduct

/-- Source `ensure_wc_product_meta`: verify that the expected meta keys exist
after the update; when some are missing, attempt one fallback write via the
WP REST product endpoint and re-verify; returns success and an error text. -/
def ensure_wc_product_meta (env : MetaVerifyEnv) (meta : List (String × String)) :
    Bool × String :=
  if meta.isEmpty then (false, "No meta keys configured.")
  else
    match env.fetch1 with
    | .error e => (false, "Meta verify failed (fetch): " ++ e)
    | .ok prod =>
      let missing := (meta.map Prod.fst).filter (fun k => !wc_meta_has prod k)
      if missing.isEmpty then (true, "")
      else if !env.updateMetaOk then
        (false, "Meta not saved for keys: " ++ joinWith ", " missing)
      else
        match env.fetch2 with
        | .error e => (false, "Meta verify failed (refetch): " ++ e)
        | .ok prod2 =>
          let missing2 := (meta.map Prod.fst).filter (fun k => !wc_meta_has prod2 k)
          if missing2.isEmpty then (true, "")
          else (false, "Meta not saved for keys: " ++ joinWith ", " missing2)

/-- The product SEO meta keys read from the runtime configuration. -/
structure ProductRuntime where
  product_meta_title_key : String
  product_meta_description_key : String
  product_focus_keyword_key : String

/-- The meta dict built by the phase-2 loop of `bulk_rewrite_products`: each
configured key maps to its generated value, in insertion order. -/
def bulk_meta (rt : ProductRuntime) (seo_title seo_description focus_keyword : String) :
    List (String × String) :=
  (if rt.product_meta_title_key ≠ "" then [(rt.product_meta_title_key, seo_title)] else []) ++
  (if rt.product_meta_description_key ≠ "" then
    [(rt.product_meta_description_key, seo_description)] else []) ++
  (if rt.product_focus_keyword_key ≠ "" then
    [(rt.product_focus_keyword_key, focus_keyword)] else [])

/-- Collaborator outcomes of one item of the phase-2 rewrite loop: the
generation result (new title, description, SEO fields), the `update_product`
call (its returned permalink), and the meta-verification environment. -/
structure BulkItemEnv where
  runtime : ProductRuntime
  generation : Except String (String × String × String × String × String)
  updateProduct : Except String String
  metaVerify : MetaVerifyEnv

/-- The phase-2 loop body of `bulk_rewrite_products` for one picked row, as a
transformer of its status row: mark `processing`; run the generation; build
the meta dict (missing keys are fatal); derive the slug (empty is fatal);
write name/description/slug/meta to WooCommerce; verify meta persistence with
fallback; log and mark `done` with all piece flags, `seo_done` reflecting the
verification; a failed verification downgrades the status to `partial` with
the verification error; any exception marks `error` with its message.  The
`product_rewrite_log` insert has no bearing on the status row and is not
modelled. -/
def process_bulk_item (env : BulkItemEnv) (row : ProductRow) : ProductRow :=
  let old_title := row.old_title
  let permalink := row.permalink
  let r1 := update_product_status (some row) "processing" none old_title "" permalink
  match env.generation with
  | .error exc => update_product_status (some r1) "error" (some exc) old_title "" permalink
  | .ok (new_title, description_html, seo_title, seo_description, focus_keyword) =>
    let meta := bulk_meta env.runtime seo_title seo_description focus_keyword
    if meta.isEmpty then
      update_product_status (some r1) "error"
        (some "Missing product SEO meta keys. Set them in Settings (Yoast defaults use _yoast_wpseo_*).")
        old_title "" permalink
    else
      let new_slug := generate_product_slug new_title 55
      if new_slug = "" then
        update_product_status (some r1) "error" (some "Could not generate product slug.")
          old_title "" permalink
      else
        match env.updateProduct with
        | .error exc =>
          update_product_status (some r1) "error" (some exc) old_title "" permalink
        | .ok updPermalink =>
          let pm := ensure_wc_product_meta env.metaVerify meta
          let ok_meta := pm.1
          let meta_err := pm.2
          let new_permalink := if updPermalink ≠ "" then updPermalink else permalink
          let r2 := update_product_status (some r1) "done" none old_title new_title new_permalink
          let r3 := update_product_piece_flags r2
            (some 1) (some 1) (some (if ok_meta then 1 else 0)) (some 1)
            (some "") (some "") (some (if ok_meta then "" else meta_err)) (some "")
            (some seo_title) (some seo_description) (some focus_keyword) none (some new_slug)
          if !ok_meta then
            update_product_status (some r3) "partial" (some meta_err) old_title new_title
              new_permalink
          else r3

/-- C7 witness environment: generation succeeds, the WooCommerce update
succeeds, but the meta keys never appear on re-fetch even after the fallback
write. -/
def envMetaFail : BulkItemEnv :=
  { runtime := ⟨"_yoast_wpseo_title", "_yoast_wpseo_metadesc", "_yoast_wpseo_focuskw"⟩
    generation := .ok ("Elementor Page Builder Kit for Agencies Premium Pack",
      "<p>body</p>", "Meta Title", "Meta Description", "page builder kit")
    updateProduct := .ok "https://shop.example/p/9"
    metaVerify :=
      { fetch1 := .ok ⟨9, "Old", "https://shop.example/p/9", "old", [], []⟩
        updateMetaOk := true
        fetch2 := .ok ⟨9, "Old", "https://shop.example/p/9", "old", [], []⟩ } }

/-- C7 witness row: a queued row picked by the loop. -/
def queuedRow9 : ProductRow :=
  { ProductRow.blank with
      status := "queued"
      old_title := "Old product title"
      permalink := "https://shop.example/p/9" }

/-- The four completion flags of a row, for stating flag preservation. -/
def rowFlags (r : ProductRow) : Nat × Nat × Nat × Nat :=
  (r.title_done, r.desc_done, r.seo_done, r.slug_done)

/-- The excluded product id 3718 as discovery sees it. -/
def excludedProduct : WCProduct :=
  ⟨3718, "Excluded product", "https://shop.example/p/3718", "x", [], []⟩

/-- A fully completed row (status `done`, all flags set). -/
def doneFullRow : ProductRow :=
  { ProductRow.blank with status := "done", title_done := 1, desc_done := 1, seo_done := 1, slug_done := 1 }

/-- Source `build_product_title_prompt`: the title-rewrite prompt with the
store-related commerce rule. -/
def build_product_title_prompt (original_title : String) (store_related : Bool) : String :=
  let original_title := clamp_spaces original_title
  let commerce_rule :=
    if store_related then
      "- Only mention \"WooCommerce\" if the product is clearly store/ecommerce related."
    else
      "- Do not mention \"WooCommerce\" in the title for this product."
  pyStrip
    ("\nRewrite this product title for SEO.\n" ++
     "\n" ++
     "Original title: " ++ original_title ++ "\n" ++
     "\n" ++
     "Rules:\n" ++
     "- Output MUST be JSON: \x7b \"title\": \"...\" \x7d\n" ++
     "- 1 title only.\n" ++
     "- 50 to 60 characters (strict).\n" ++
     "- Remove the word \"free\" / \"Free\" (and any similar \"free ...\" wording).\n" ++
     "- Do not use the word \"official\".\n" ++
     "- Do not use \"WooCommerce Pro\" (WooCommerce does not have a Pro product).\n" ++
     "- " ++ commerce_rule ++ "\n" ++
     "- If you mention WooCommerce, spell it exactly \"WooCommerce\" (not \"woocomerce\").\n" ++
     "- Use simple words WordPress developers search on Google.\n" ++
     "- You may use: premium, pro, download.\n" ++
     "- Keep it natural, professional, not hype.\n" ++
     "- Be creative: vary structure and avoid repeating common starter patterns.\n" ++
     "- Do not add quotes or emojis.\n")

/-- The corrective re-prompt of the title loop, quoting the current value and
its character length. -/
def build_title_revise_prompt (new_title : String) (store_related : Bool) : String :=
  pyStrip
    ("\nYou must revise the product title to match the rules.\n" ++
     "\n" ++
     "Current title: " ++ new_title ++ "\n" ++
     "Character length: " ++ toString new_title.toList.length ++ "\n" ++
     "\n" ++
     "Rules:\n" ++
     "- Output MUST be JSON: \x7b \"title\": \"...\" \x7d\n" ++
     "- 50 to 60 characters (strict).\n" ++
     "- Do not use the word \"official\".\n" ++
     "- Do not use the word \"free\" (any casing).\n" ++
     "- Do not use \"WooCommerce Pro\" (WooCommerce does not have a Pro product).\n" ++
     (if store_related then "- - Only mention WooCommerce when clearly store-related.\n"
      else "- - Do not mention WooCommerce in this title.\n") ++
     "- If you mention WooCommerce, spell it exactly \"WooCommerce\" (not \"woocomerce\").\n" ++
     "- Keep it simple and SEO-friendly for WordPress dev searches.\n")

/-- Model of `str(title_data.get("title", "") or "")`. -/
def titleFromData (d : List (String × JVal)) : String :=
  let v := (jGet d "title").getD (.jstr "")
  if jTruthy v then pyStr v else ""

/-- The validation condition of the title loop: strict length range and no
banned term ("official", "woocommerce pro", the "woocomerce" misspelling). -/
def product_title_valid (t : String) : Bool :=
  title_len_ok t && !containsSub (pyLower t) "official" &&
    !containsSub (pyLower t) "woocommerce pro" && !containsSub (pyLower t) "woocomerce"

/-- The `for _ in range(2)` corrective loop of
`generate_product_title_and_description`: while the title is invalid and
iterations remain, send a revise prompt (with the usual parse-repair
contract) and recompute the cleaned title.  Returns the model-call effects
and the final (title, prompt, response, next call index). -/
def product_title_revise_loop (gem : Nat → Except String String) (store_related : Bool) :
    Nat → String → String → String → Nat →
    List Eff × Except String (String × String × String × Nat)
  | 0, t, p, r, n => ([], .ok (t, p, r, n))
  | k + 1, t, p, r, n =>
    if product_title_valid t then ([], .ok (t, p, r, n))
    else
      let revise_prompt := build_title_revise_prompt t store_related
      let pp := genParse gem n revise_prompt
      match pp.2 with
      | .error m => (pp.1, .error m)
      | .ok (d, fp, resp, n2) =>
        let t2 := normalize_woocommerce_spelling
          (remove_free_words (clamp_spaces (titleFromData d))) true
        let rest := product_title_revise_loop gem store_related k t2 fp resp n2
        (pp.1 ++ rest.1, rest.2)

/-- The title step of `generate_product_title_and_description` (its first
phase, up to the description step): generate a title, clean it, then run the
2-iteration corrective loop. -/
def product_title_step (gem : Nat → Except String String) (original_title : String) :
    List Eff × Except String (String × String × String × Nat) :=
  let store_related := is_store_related_product_title original_title
  let title_prompt := build_product_title_prompt original_title store_related
  let p0 := genParse gem 0 title_prompt
  match p0.2 with
  | .error m => (p0.1, .error m)
  | .ok (title_data, fp, title_resp, n1) =>
    let new_title := normalize_woocommerce_spelling
      (remove_free_words (clamp_spaces (titleFromData title_data))) true
    let lp := product_title_revise_loop gem store_related 2 new_title fp title_resp n1
    (p0.1 ++ lp.1, lp.2)

/-- Effect classifier: a model call. -/
def isGeminiCall : Eff → Bool
  | .geminiCall _ => true
  | _ => false

/-- A model that always answers with the same 45-character title (an invalid
length: the strict range is 50-60), for the initial and both corrective
prompts. -/
def gemTitle45 : Nat → Except String String :=
  fun _ => .ok "\x7b\"title\": \"Premium WordPress Starter Theme Bundle Kit Go\"\x7d"

/-- The generation environment whose title generation produced the invalid
45-character title and whose remaining collaborators all succeed. -/
def envTitle45 : BulkItemEnv :=
  { runtime := ⟨"_yoast_wpseo_title", "_yoast_wpseo_metadesc", "_yoast_wpseo_focuskw"⟩
    generation := .ok ("Premium WordPress Starter Theme Bundle Kit Go",
      "<p>body</p>", "Meta Title", "Meta Description", "starter theme bundle")
    updateProduct := .ok "https://shop.example/p/8"
    metaVerify :=
      { fetch1 := .ok ⟨8, "New", "https://shop.example/p/8", "s",
          [], ["_yoast_wpseo_title", "_yoast_wpseo_metadesc", "_yoast_wpseo_focuskw"]⟩
        updateMetaOk := true
        fetch2 := .ok ⟨8, "New", "https://shop.example/p/8", "s",
          [], ["_yoast_wpseo_title", "_yoast_wpseo_metadesc", "_yoast_wpseo_focuskw"]⟩ } }

/-- A queued row for the invalid-title product. -/
def queuedRow8 : ProductRow :=
  { ProductRow.blank with
      status := "queued"
      old_title := "Sample original product title"
      permalink := "https://shop.example/p/8" }

/-- Matcher for `\bwoocommerce\s+pro\b` at the current position (the `\b`
precondition is the caller's), returning the remainder after the match. -/
def matchWooPro (cs : List Char) : Option (List Char) :=
  match matchCI "woocommerce".toList cs with
  | none => none
  | some r1 =>
    let sp := r1.takeWhile pyIsSpace
    if sp.isEmpty then none
    else
      match matchCI "pro".toList (r1.drop sp.length) with
      | none => none
      | some r2 =>
        match r2 with
        | [] => some []
        | c :: _ => if isWordChar c then none else some r2

/-- Scanner for `re.sub(r"\bwoocommerce\s+pro\b", "WooCommerce", text,
flags=re.IGNORECASE)`. -/
def wooProFixAux : Nat → Bool → List Char → List Char
  | 0, _, cs => cs
  | _ + 1, _, [] => []
  | f + 1, prevWord, c :: cs =>
    if !prevWord then
      match matchWooPro (c :: cs) with
      | some rest => "WooCommerce".toList ++ wooProFixAux f true rest
      | none => c :: wooProFixAux f (isWordChar c) cs
    else c :: wooProFixAux f (isWordChar c) cs

/-- The `sanitize` closure of `generate_product_seo_meta`: collapse spaces,
strip "free" wording and "official", rewrite "woocommerce pro" to
"WooCommerce", normalise the brand spelling, collapse again. -/
def seo_sanitize (text : String) (proper_case : Bool) : String :=
  let text := clamp_spaces text
  let text := remove_free_words text
  let text := removeWordCI text "official"
  let text : String := ⟨wooProFixAux (text.toList.length + 1) false text.toList⟩
  let text := normalize_woocommerce_spelling text proper_case
  clamp_spaces text

/-- Python `cut.rsplit(" ", 1)[0]`: everything before the last space. -/
def dropAfterLastSpace (cut : List Char) : List Char :=
  ((cut.reverse.dropWhile (fun c => c ≠ ' ')).drop 1).reverse

/-- The `clamp_to_range` closure of `generate_product_seo_meta`: truncate at
the word boundary nearest under the cap when too long, append the pad phrase
(re-trimming an overshoot) when too short. -/
def clamp_to_range (text : String) (lo hi : Nat) (pad : String) : String :=
  let text := clamp_spaces text
  let text :=
    if text.toList.length > hi then
      let cut := text.toList.take (hi + 1)
      let cut := if cut.contains ' ' then dropAfterLastSpace cut else cut
      pyRstripSet ⟨cut⟩ [' ', ',', '.', '-']
    else text
  let text :=
    if text.toList.length < lo then
      let text := clamp_spaces (pyStrip (text ++ " " ++ pad))
      if text.toList.length > hi then pyRstripSet ⟨text.toList.take hi⟩ [' ', ',', '.', '-']
      else text
    else text
  clamp_spaces text

/-- The `derive_focus_keyword` closure of `generate_product_seo_meta`: slug
parts minus stop words, at most 4, sanitised and padded to 2-4 words. -/
def derive_focus_keyword (title : String) : String :=
  let raw := slugify title
  let stop : List String :=
    ["premium", "download", "pro", "the", "and", "for", "with", "wordpress", "woocommerce"]
  let allParts := splitDash raw
  let parts := allParts.filter (fun p => p ≠ "" && !stop.contains p)
  let parts := if parts.isEmpty then allParts.filter (fun p => p ≠ "") else parts
  let parts := parts.take 4
  let kw := pyLower (joinWith " " parts)
  let kw := pyLower (seo_sanitize kw false)
  let words := ((splitOnCharAux ' ' kw.toList []).map (fun cs => (⟨cs⟩ : String))).filter
    (fun w => w ≠ "")
  let words := if words.length < 2 then (words ++ ["download"]).take 2 else words
  let words := if words.length > 4 then words.take 4 else words
  pyStrip (joinWith " " words)

/-- Source `build_product_seo_prompt`. -/
def build_product_seo_prompt (product_title description_html : String)
    (store_related : Bool) : String :=
  let product_title := clamp_spaces product_title
  let summary : String := ⟨(pyStrip (collapseWs (strip_html description_html))).toList.take 800⟩
  let commerce_rule :=
    if store_related then
      "- Use \"WooCommerce\" only if it naturally fits store/ecommerce intent."
    else
      "- Do not force \"WooCommerce\" into meta fields for this product."
  pyStrip
    ("\nGenerate SEO meta title, meta description, and a focus keyword for this product.\n" ++
     "\n" ++
     "Product title: " ++ product_title ++ "\n" ++
     "Description summary: " ++ summary ++ "\n" ++
     "\n" ++
     "Rules:\n" ++
     "- Output MUST be JSON: \x7b \"meta_title\": \"...\", \"meta_description\": \"...\", \"focus_keyword\": \"...\" \x7d\n" ++
     "- meta_title: 50 to 60 characters (strict), no \"official\", no \"free\".\n" ++
     "- meta_description: 140 to 160 characters (strict), no \"official\", no \"free\".\n" ++
     "- focus_keyword: 2 to 4 words, lowercase, no brand names, no \"free\", no \"official\".\n" ++
     "- Do not use \"woocommerce pro\" anywhere (WooCommerce has no Pro product).\n" ++
     commerce_rule ++ "\n" ++
     "- Do not misspell WooCommerce (never \"woocomerce\").\n" ++
     "- Use simple words WordPress devs search on Google.\n")

/-- Source `generate_product_seo_meta`: generate the three SEO fields with
the parse-repair-once contract, but catch every model/parse failure and fall
back to `data = {}`; each field is sanitised and clamped locally, with the
focus keyword re-derived and guarded against banned phrases.  Returns
(meta_title, meta_description, focus_keyword, prompt, resp). -/
def generate_product_seo_meta (gem : Nat → Except String String)
    (product_title description_html : String) (store_related : Bool) :
    String × String × String × String × String :=
  let prompt0 := build_product_seo_prompt product_title description_html store_related
  let tri : List (String × JVal) × String × String :=
    match gem 0 with
    | .error _ => ([], prompt0, "")
    | .ok resp1 =>
      match extract_json resp1 with
      | .ok d => (d, prompt0, resp1)
      | .error _ =>
        let rp := build_json_repair_prompt prompt0 resp1
        match gem 1 with
        | .error _ => ([], rp, resp1)
        | .ok resp2 =>
          match extract_json resp2 with
          | .ok d => (d, rp, resp2)
          | .error _ => ([], rp, resp2)
  let data := tri.1
  let prompt := tri.2.1
  let resp := tri.2.2
  let mtv := (jGet data "meta_title").getD (.jstr "")
  let meta_title := seo_sanitize (if jTruthy mtv then pyStr mtv else product_title) true
  let mdv := (jGet data "meta_description").getD (.jstr "")
  let meta_description := seo_sanitize (if jTruthy mdv then pyStr mdv else "") true
  let meta_description :=
    if meta_description = "" then
      seo_sanitize ⟨(strip_html description_html).toList.take 180⟩ true
    else meta_description
  let fkv := (jGet data "focus_keyword").getD (.jstr "")
  let focus_keyword := pyLower (seo_sanitize (if jTruthy fkv then pyStr fkv else "") false)
  let focus_keyword :=
    if focus_keyword = "" then derive_focus_keyword product_title else focus_keyword
  let meta_title := clamp_to_range meta_title 50 60 "Premium Download"
  let meta_description :=
    clamp_to_range meta_description 140 160 "GPL download for WordPress developers."
  let focus_keyword :=
    derive_focus_keyword (if focus_keyword ≠ "" then focus_keyword else product_title)
  let focus_keyword :=
    if containsSub focus_keyword "woocommerce pro" || containsSub focus_keyword "woocomerce" then
      derive_focus_keyword product_title
    else focus_keyword
  (meta_title, meta_description, focus_keyword, prompt, resp)

/-- When every key fails with a quota error, the loop ends with the last
key's message, whatever quota message it was carrying on entry. -/
theorem generateLoop_all_quota (keys : List KeyBehavior) (le : Option String)
    (k : KeyBehavior) (m : String)
    (hall : keys.all quotaOnlyFailure = true)
    (hlast : keys.getLast? = some k) (hm : k.genFirst = .error m) :
    generateLoop keys le = .error m := by
  induction keys generalizing le with
  | nil => simp at hlast
  | cons k0 rest ih =>
    simp only [List.all_cons, Bool.and_eq_true] at hall
    obtain ⟨hq0, hqrest⟩ := hall
    obtain ⟨g0, ml0, gr0⟩ := k0
    cases hg : g0 with
    | ok t =>
      rw [hg] at hq0
      simp [quotaOnlyFailure] at hq0
    | error m0 =>
      rw [hg] at hq0
      simp only [quotaOnlyFailure, Bool.and_eq_true, Bool.not_eq_true'] at hq0
      obtain ⟨hquota, hnotmodel⟩ := hq0
      have hstep : generateLoop (⟨Except.error m0, ml0, gr0⟩ :: rest) le
          = generateLoop rest (some m0) := by
        simp [generateLoop, hnotmodel, hquota]
      rw [hstep]
      cases rest with
      | nil =>
        have hk : k = ({ genFirst := g0, modelsList := ml0, genRetry := gr0 } : KeyBehavior) := by
          simpa using hlast.symm
        rw [hg] at hk
        rw [hk] at hm
        simp at hm
        subst hm
        rfl
      | cons k1 rest1 =>
        exact ih (some m0) hqrest (List.getLast?_cons_cons.symm.trans hlast)

/-- C2: `MultiKeyGemini.generate` tries the configured keys in priority
order: a key whose attempt fails with a quota/rate-exhaustion error is
remembered and the next key is tried without raising; any other error (one
not matching the model-name-correction pattern, which the source handles
first) propagates immediately with no further key tried; and when every key
fails with a quota error, the last key's quota error is raised to the
caller. -/
theorem multiKeyGenerate_quota_rotation :
    (∀ (k : KeyBehavior) (rest : List KeyBehavior) (le : Option String) (m : String),
        k.genFirst = .error m → is_quota_error m = true → isModelNotFoundError m = false →
        generateLoop (k :: rest) le = generateLoop rest (some m)) ∧
    (∀ (k : KeyBehavior) (rest : List KeyBehavior) (le : Option String) (m : String),
        k.genFirst = .error m → is_quota_error m = false → isModelNotFoundError m = false →
        generateLoop (k :: rest) le = .error m) ∧
    (∀ (keys : List KeyBehavior) (k : KeyBehavior) (m : String),
        keys.all quotaOnlyFailure = true →
        keys.getLast? = some k → k.genFirst = .error m →
        multiKeyGenerate keys = .error m) := by
  refine ⟨?_, ?_, ?_⟩
  · intro k rest le m hg hq hnm
    obtain ⟨g, ml, gr⟩ := k
    simp only at hg
    subst hg
    simp [generateLoop, hq, hnm]
  · intro k rest le m hg hq hnm
    obtain ⟨g, ml, gr⟩ := k
    simp only at hg
    subst hg
    simp [generateLoop, hq, hnm]
  · intro keys k m hall hlast hm
    cases keys with
    | nil => simp at hlast
    | cons a l =>
      simpa [multiKeyGenerate] using generateLoop_all_quota (a :: l) none k m hall hlast hm

/-- C2 witness: with two configured keys both failing on quota errors, the
call raises the second (last) key's error. -/
theorem multiKeyGenerate_quota_rotation_witness :
    multiKeyGenerate
        [⟨Except.error "Quota exceeded for key A", Except.ok [], Except.error ""⟩,
         ⟨Except.error "429 rate limit on key B", Except.ok [], Except.error ""⟩]
      = Except.error "429 rate limit on key B" :=
  multiKeyGenerate_quota_rotation.2.2
    [⟨Except.error "Quota exceeded for key A", Except.ok [], Except.error ""⟩,
     ⟨Except.error "429 rate limit on key B", Except.ok [], Except.error ""⟩]
    ⟨Except.error "429 rate limit on key B", Except.ok [], Except.error ""⟩
    "429 rate limit on key B" (by decide) (by simp [List.getLast?]) rfl

/-- C1 counterexample: a row whose stored status is "partial" with all four
completion flags clear is reported as "partial"; the claim's flag-derivation
(stored "partial" is outside its explicit-status list, and no flag is set)
requires "pending" there. -/
theorem compute_status_stored_partial_counterexample :
    compute_product_overall_status { ProductRow.blank with status := "partial" } = "partial" ∧
    ¬ compute_product_overall_status { ProductRow.blank with status := "partial" } = "pending" := by
  constructor <;> decide

/-- C1 (amended): the overall product status follows the precedence rule —
an explicitly stored (stripped) status of "skipped", "done", "processing",
"queued" or "error" is returned as-is; otherwise all four completion flags
set yields "done" and at least one but not all yields "partial"; with no
flag set, the status is "pending" when the stored status is blank, and the
stored stripped status itself otherwise. -/
theorem compute_product_overall_status_precedence (row : ProductRow) :
    (pyStrip row.status = "skipped" → compute_product_overall_status row = "skipped") ∧
    (pyStrip row.status = "done" → compute_product_overall_status row = "done") ∧
    (pyStrip row.status = "processing" → compute_product_overall_status row = "processing") ∧
    (pyStrip row.status = "queued" → compute_product_overall_status row = "queued") ∧
    (pyStrip row.status = "error" → compute_product_overall_status row = "error") ∧
    (pyStrip row.status ≠ "skipped" → pyStrip row.status ≠ "done" →
     pyStrip row.status ≠ "processing" → pyStrip row.status ≠ "queued" →
     pyStrip row.status ≠ "error" →
      ((row.title_done ≠ 0 ∧ row.desc_done ≠ 0 ∧ row.seo_done ≠ 0 ∧ row.slug_done ≠ 0 →
          compute_product_overall_status row = "done") ∧
       ((row.title_done ≠ 0 ∨ row.desc_done ≠ 0 ∨ row.seo_done ≠ 0 ∨ row.slug_done ≠ 0) →
        ¬(row.title_done ≠ 0 ∧ row.desc_done ≠ 0 ∧ row.seo_done ≠ 0 ∧ row.slug_done ≠ 0) →
          compute_product_overall_status row = "partial") ∧
       (row.title_done = 0 → row.desc_done = 0 → row.seo_done = 0 → row.slug_done = 0 →
          compute_product_overall_status row =
            (if pyStrip row.status = "" then "pending" else pyStrip row.status)))) := by
  unfold compute_product_overall_status
  refine ⟨fun h => by simp [h], fun h => by simp [h], fun h => by simp [h],
    fun h => by simp [h], fun h => by simp [h], ?_⟩
  intro h1 h2 h3 h4 h5
  refine ⟨fun hall => by simp [h1, h2, h3, h4, h5, hall], ?_, ?_⟩
  · intro hsome hnall
    simp [h1, h2, h3, h4, h5, hsome, hnall]
  · intro t0 d0 s0 l0
    simp [h1, h2, h3, h4, h5, t0, d0, s0, l0]

/-- C1 witness: the precedence theorem applied at concrete rows — a stored
"  done " status wins, and a row with all four flags set derives "done". -/
theorem compute_product_overall_status_precedence_witness :
    compute_product_overall_status { ProductRow.blank with status := "  done " } = "done" ∧
    compute_product_overall_status
        { ProductRow.blank with title_done := 1, desc_done := 1, seo_done := 1, slug_done := 1 }
      = "done" :=
  ⟨(compute_product_overall_status_precedence _).2.1 (by decide),
   ((compute_product_overall_status_precedence _).2.2.2.2.2 (by decide) (by decide)
      (by decide) (by decide) (by decide)).1 (by decide)⟩

/-- C3: a post-pipeline run on a post whose fetched content is non-empty
marks it `done` with the "Skipped: content already exists." note and stops:
the trace holds no model call and no CMS write (`update_post`), so
re-running the pipeline on an already-filled post is a no-op against the CMS
collaborator. -/
theorem perform_generation_already_filled_noop (env : PostEnv) (t c : String)
    (hfetch : env.fetchPost = .ok (t, c))
    (hfilled : is_empty_content c = false) :
    perform_generation env =
      ([Eff.getPost env.post_id,
        Eff.updateStatus env.post_id "done" (some "Skipped: content already exists.")],
       .ok ()) ∧
    (∀ e ∈ (perform_generation env).1,
      (∀ p, e ≠ Eff.geminiCall p) ∧
      (∀ pid ch mt md ids, e ≠ Eff.updatePost pid ch mt md ids)) := by
  have hmain : perform_generation env =
      ([Eff.getPost env.post_id,
        Eff.updateStatus env.post_id "done" (some "Skipped: content already exists.")],
       .ok ()) := by
    unfold perform_generation
    rw [hfetch]
    simp [hfilled]
  refine ⟨hmain, ?_⟩
  intro e he
  rw [hmain] at he
  simp only [List.mem_cons, List.mem_singleton, List.not_mem_nil, or_false] at he
  rcases he with rfl | rfl <;> exact ⟨fun p => by simp, fun pid ch mt md ids => by simp⟩

/-- C3 witness: applying the guard theorem to a concrete filled post. -/
theorem perform_generation_already_filled_noop_witness :
    perform_generation envFilledPost =
      ([Eff.getPost 7, Eff.updateStatus 7 "done" (some "Skipped: content already exists.")],
       .ok ()) :=
  (perform_generation_already_filled_noop envFilledPost "A title" "<p>existing body</p>"
    rfl (by decide)).1

/-- C4: a primary model response that fails structured-JSON parsing triggers
exactly one repair request — whose prompt is `build_json_repair_prompt`
applied to the bad output — and the repair response is parsed again.  A
second parse failure is fatal: the run ends with the post set to `error`.
When the repair parse succeeds (with all required fields present), the run
completes with exactly those two model calls and the stored fields all come
from the repaired output. -/
theorem perform_generation_repair_once (envA envB : PostEnv)
    (tA cA r1A r2A e1A e2A : String)
    (hfA : envA.fetchPost = .ok (tA, cA)) (heA : is_empty_content cA = true)
    (hcA : ∀ i, envA.canceled i = false)
    (hg0A : envA.gem 0 = .ok r1A) (hp1A : extract_json r1A = .error e1A)
    (hg1A : envA.gem 1 = .ok r2A) (hp2A : extract_json r2A = .error e2A)
    (tB cB r1B r2B e1B : String) (dB : List (String × JVal))
    (chB mtB mdB : String) (tlB : List JVal)
    (hfB : envB.fetchPost = .ok (tB, cB)) (heB : is_empty_content cB = true)
    (hcB : ∀ i, envB.canceled i = false)
    (hg0B : envB.gem 0 = .ok r1B) (hp1B : extract_json r1B = .error e1B)
    (hg1B : envB.gem 1 = .ok r2B) (hp2B : extract_json r2B = .ok dB)
    (hchB : jGetStrStripped dB "content_html" = .ok chB) (hchne : chB ≠ "")
    (hmtB : jGetStrStripped dB "meta_title" = .ok mtB) (hmtne : mtB ≠ "")
    (hmdB : jGetStrStripped dB "meta_description" = .ok mdB) (hmdne : mdB ≠ "")
    (htagB : normTagsVal ((jGet dB "tags").getD (.jarr [])) = .jarr tlB)
    (htagTrue : tlB.isEmpty = false)
    (tEffs : List Eff) (ids : List Nat) (tstr : String)
    (hres : resolveTags envB.tagResult tlB = (tEffs, .ok ids))
    (hjoin : joinStrTags tlB = .ok tstr) :
    (process_post envA =
      [Eff.updateStatus envA.post_id "processing" none,
       Eff.getPost envA.post_id,
       Eff.geminiCall (build_prompt (normalize_title tA) envA.inboundSample envA.custom_prompt),
       Eff.geminiCall (build_json_repair_prompt
         (build_prompt (normalize_title tA) envA.inboundSample envA.custom_prompt) r1A),
       Eff.updateStatus envA.post_id "error" (some e2A)]) ∧
    (process_post envB =
      [Eff.updateStatus envB.post_id "processing" none,
       Eff.getPost envB.post_id,
       Eff.geminiCall (build_prompt (normalize_title tB) envB.inboundSample envB.custom_prompt),
       Eff.geminiCall (build_json_repair_prompt
         (build_prompt (normalize_title tB) envB.inboundSample envB.custom_prompt) r1B)]
       ++ tEffs ++
      [Eff.updatePost envB.post_id chB mtB mdB ids,
       Eff.invalidateCache,
       Eff.logGeneration envB.post_id
         (build_prompt (normalize_title tB) envB.inboundSample envB.custom_prompt)
         r2B mtB mdB tstr,
       Eff.updateStatus envB.post_id "done" none]) := by
  constructor
  · have hpg : perform_generation envA =
        ([Eff.getPost envA.post_id,
          Eff.geminiCall (build_prompt (normalize_title tA) envA.inboundSample envA.custom_prompt),
          Eff.geminiCall (build_json_repair_prompt
            (build_prompt (normalize_title tA) envA.inboundSample envA.custom_prompt) r1A)],
         .error e2A) := by
      unfold perform_generation genParse
      rw [hfA]
      simp [heA, hcA 1, hg0A, hp1A, hg1A, hp2A]
    unfold process_post
    rw [hcA 0]
    simp [hpg]
  · have hpg : perform_generation envB =
        ([Eff.getPost envB.post_id,
          Eff.geminiCall (build_prompt (normalize_title tB) envB.inboundSample envB.custom_prompt),
          Eff.geminiCall (build_json_repair_prompt
            (build_prompt (normalize_title tB) envB.inboundSample envB.custom_prompt) r1B)]
          ++ tEffs ++
         [Eff.updatePost envB.post_id chB mtB mdB ids,
          Eff.invalidateCache,
          Eff.logGeneration envB.post_id
            (build_prompt (normalize_title tB) envB.inboundSample envB.custom_prompt)
            r2B mtB mdB tstr,
          Eff.updateStatus envB.post_id "done" none],
         .ok ()) := by
      unfold perform_generation genParse performTail
      rw [hfB]
      simp [heB, hcB 1, hcB 2, hcB 3, hg0B, hp1B, hg1B, hp2B, hchB, hchne, hmtB, hmtne,
        hmdB, hmdne, htagB, htagTrue, jTruthy, jIter, hres, hjoin]
    unfold process_post
    rw [hcB 0]
    simp [hpg]

set_option maxRecDepth 8192 in
/-- C4 witness: the repair theorem applied to the two concrete environments;
the failing repair ends in `error`, the succeeding repair stores the repaired
fields with exactly two model calls. -/
theorem perform_generation_repair_once_witness :
    (process_post envRepairFail =
      [Eff.updateStatus 11 "processing" none,
       Eff.getPost 11,
       Eff.geminiCall (build_prompt (normalize_title "How to test")
         ["https://gplmama.com/pricing/"] ""),
       Eff.geminiCall (build_json_repair_prompt
         (build_prompt (normalize_title "How to test") ["https://gplmama.com/pricing/"] "")
         "sorry, here is prose"),
       Eff.updateStatus 11 "error" (some "No JSON object found in model response.")]) ∧
    (process_post envRepairOk =
      [Eff.updateStatus 12 "processing" none,
       Eff.getPost 12,
       Eff.geminiCall (build_prompt (normalize_title "How to test")
         ["https://gplmama.com/pricing/"] ""),
       Eff.geminiCall (build_json_repair_prompt
         (build_prompt (normalize_title "How to test") ["https://gplmama.com/pricing/"] "")
         "sorry, here is prose")]
       ++ [Eff.findOrCreateTag "alpha", Eff.findOrCreateTag "beta"] ++
      [Eff.updatePost 12 "<p>Repaired body</p>" "Repaired title" "Repaired desc" [3, 3],
       Eff.invalidateCache,
       Eff.logGeneration 12
         (build_prompt (normalize_title "How to test") ["https://gplmama.com/pricing/"] "")
         "\x7b\"content_html\": \"<p>Repaired body</p>\", \"meta_title\": \"Repaired title\", \"meta_description\": \"Repaired desc\", \"tags\": [\"alpha\", \"beta\"]\x7d"
         "Repaired title" "Repaired desc" "alpha, beta",
       Eff.updateStatus 12 "done" none]) :=
  perform_generation_repair_once envRepairFail envRepairOk
    "How to test" "" "sorry, here is prose" "still prose"
    "No JSON object found in model response." "No JSON object found in model response."
    rfl (by decide) (fun _ => rfl) rfl rfl rfl rfl
    "How to test" "" "sorry, here is prose"
    "\x7b\"content_html\": \"<p>Repaired body</p>\", \"meta_title\": \"Repaired title\", \"meta_description\": \"Repaired desc\", \"tags\": [\"alpha\", \"beta\"]\x7d"
    "No JSON object found in model response."
    [("content_html", JVal.jstr "<p>Repaired body</p>"), ("meta_title", JVal.jstr "Repaired title"),
     ("meta_description", JVal.jstr "Repaired desc"),
     ("tags", JVal.jarr [JVal.jstr "alpha", JVal.jstr "beta"])]
    "<p>Repaired body</p>" "Repaired title" "Repaired desc"
    [JVal.jstr "alpha", JVal.jstr "beta"]
    rfl (by decide) (fun _ => rfl) rfl rfl rfl rfl
    rfl (by decide) rfl (by decide) rfl (by decide) rfl rfl
    [Eff.findOrCreateTag "alpha", Eff.findOrCreateTag "beta"] [3, 3] "alpha, beta"
    rfl rfl

/-- C9: submitting a post whose stored status is `queued` or `processing` is
rejected — `enqueue_post` returns `false` with no status write and no task
submission; any other stored status is set to `queued` and exactly one
pipeline task is submitted, returning `true`. -/
theorem enqueue_post_reject_inflight (post_id : Nat) (current : String) :
    (current = "queued" ∨ current = "processing" →
      enqueue_post post_id current = (false, [])) ∧
    (current ≠ "queued" → current ≠ "processing" →
      enqueue_post post_id current =
        (true, [Eff.updateStatus post_id "queued" none, Eff.submitTask post_id]) ∧
      ((enqueue_post post_id current).2.countP (fun e => isSubmit e)).succ = 2) := by
  constructor
  · intro h
    simp [enqueue_post, h]
  · intro h1 h2
    have hmain : enqueue_post post_id current =
        (true, [Eff.updateStatus post_id "queued" none, Eff.submitTask post_id]) := by
      simp [enqueue_post, h1, h2]
    refine ⟨hmain, ?_⟩
    rw [hmain]
    simp [List.countP, List.countP.go, isSubmit]

/-- C9 witness: a `queued` post is rejected with no effect; an `error` post is
re-queued with exactly one submission. -/
theorem enqueue_post_reject_inflight_witness :
    enqueue_post 3 "queued" = (false, []) ∧
    enqueue_post 3 "error" = (true, [Eff.updateStatus 3 "queued" none, Eff.submitTask 3]) :=
  ⟨(enqueue_post_reject_inflight 3 "queued").1 (Or.inl rfl),
   ((enqueue_post_reject_inflight 3 "error").2 (by decide) (by decide)).1⟩

/-- C10 (implicit in `build_index_context`): a status row carrying a
non-empty `last_error` whose status is not `canceled` is displayed as
`error`, overriding the stored status; in particular the row written by the
already-filled skip guard (`done` with the note "Skipped: content already
exists." stored in `last_error`) is displayed as `error`, not `done`. -/
theorem post_display_error_override (row : PostStatusRow) (content_html e : String)
    (he : row.last_error = some e) (hne : e ≠ "") (hs : row.status ≠ "canceled") :
    post_display_status (some row) content_html = "error" ∧
    (∀ (g : Option String) (c2 : String),
      post_display_status
        (some (apply_update_status "done" (some "Skipped: content already exists.")
          (g.getD ""))) c2 = "error") := by
  constructor
  · simp [post_display_status, he, hne, hs]
  · intro g c2
    simp [post_display_status, apply_update_status]

/-- C10 witness: the skip-guard row (`done` + non-empty note) is displayed as
`error`. -/
theorem post_display_error_override_witness :
    post_display_status
      (some { status := "done", generated_at := some "2024-01-01T00:00:00",
              last_error := some "Skipped: content already exists." }) "<p>x</p>" = "error" :=
  (post_display_error_override
    { status := "done", generated_at := some "2024-01-01T00:00:00",
      last_error := some "Skipped: content already exists." }
    "<p>x</p>" "Skipped: content already exists." rfl (by decide) (by decide)).1

/-- C7: when product metadata persistence cannot be verified even after the
fallback write, the run records `seo_done = 0` with the verification error
(compacted) while the other completed sub-task flags stay done, and the
product's overall status becomes `partial`, not `error`. -/
theorem bulk_meta_verify_failure_partial (env : BulkItemEnv) (row : ProductRow)
    (gen : String × String × String × String × String)
    (hgen : env.generation = .ok gen)
    (hmeta : (bulk_meta env.runtime gen.2.2.1 gen.2.2.2.1 gen.2.2.2.2).isEmpty = false)
    (hslug : generate_product_slug gen.1 55 ≠ "")
    (pl : String) (hupd : env.updateProduct = .ok pl)
    (hverify : (ensure_wc_product_meta env.metaVerify
        (bulk_meta env.runtime gen.2.2.1 gen.2.2.2.1 gen.2.2.2.2)).1 = false) :
    (process_bulk_item env row).seo_done = 0 ∧
    (process_bulk_item env row).last_seo_error =
      compact_error_message (some (ensure_wc_product_meta env.metaVerify
        (bulk_meta env.runtime gen.2.2.1 gen.2.2.2.1 gen.2.2.2.2)).2) ∧
    (process_bulk_item env row).title_done = 1 ∧
    (process_bulk_item env row).desc_done = 1 ∧
    (process_bulk_item env row).slug_done = 1 ∧
    (process_bulk_item env row).status = "partial" ∧
    compute_product_overall_status (process_bulk_item env row) = "partial" ∧
    compute_product_overall_status (process_bulk_item env row) ≠ "error" := by
  obtain ⟨nt, dh, st, sd, fk⟩ := gen
  simp only at hmeta hslug hverify
  have hmain : process_bulk_item env row =
      update_product_status (some (update_product_piece_flags
        (update_product_status
          (some (update_product_status (some row) "processing" none row.old_title "" row.permalink))
          "done" none row.old_title nt
          (if pl ≠ "" then pl else row.permalink))
        (some 1) (some 1) (some 0) (some 1)
        (some "") (some "")
        (some (ensure_wc_product_meta env.metaVerify (bulk_meta env.runtime st sd fk)).2)
        (some "")
        (some st) (some sd) (some fk) none (some (generate_product_slug nt 55))))
      "partial"
      (some (ensure_wc_product_meta env.metaVerify (bulk_meta env.runtime st sd fk)).2)
      row.old_title nt (if pl ≠ "" then pl else row.permalink) := by
    unfold process_bulk_item
    rw [hgen]
    simp [hmeta, hslug, hupd, hverify]
  rw [hmain]
  have hps : pyStrip "partial" = "partial" := rfl
  refine ⟨rfl, rfl, rfl, rfl, rfl, rfl, ?_, ?_⟩ <;>
    simp [compute_product_overall_status, update_product_status,
      update_product_piece_flags, hps]

/-- C7 witness: the meta-verification-failure theorem applied to a concrete
environment whose re-fetches never show the keys. -/
theorem bulk_meta_verify_failure_partial_witness :
    (process_bulk_item envMetaFail queuedRow9).seo_done = 0 ∧
    (process_bulk_item envMetaFail queuedRow9).last_seo_error =
      compact_error_message (some (ensure_wc_product_meta envMetaFail.metaVerify
        (bulk_meta envMetaFail.runtime "Meta Title" "Meta Description" "page builder kit")).2) ∧
    (process_bulk_item envMetaFail queuedRow9).title_done = 1 ∧
    (process_bulk_item envMetaFail queuedRow9).desc_done = 1 ∧
    (process_bulk_item envMetaFail queuedRow9).slug_done = 1 ∧
    (process_bulk_item envMetaFail queuedRow9).status = "partial" ∧
    compute_product_overall_status (process_bulk_item envMetaFail queuedRow9) = "partial" ∧
    compute_product_overall_status (process_bulk_item envMetaFail queuedRow9) ≠ "error" :=
  bulk_meta_verify_failure_partial envMetaFail queuedRow9
    ("Elementor Page Builder Kit for Agencies Premium Pack",
      "<p>body</p>", "Meta Title", "Meta Description", "page builder kit")
    rfl (by decide) (by decide) "https://shop.example/p/9" rfl (by decide)

/-- C8 counterexample: product id 3718 (an excluded id) whose stored row is
already `done`: the bulk discovery pass leaves the row `done` — it does not
mark it `skipped` as the claim's exclusion rule requires — while the sync
pass re-marks the same row `skipped` (so under the alternative reading, in
which an already-progressed row is always left alone, sync contradicts the
claim at the same input). -/
theorem discovery_exclusion_counterexample :
    handle_discovered excludedProduct (some doneFullRow) = some doneFullRow ∧
    ¬ (handle_discovered excludedProduct (some doneFullRow)).map ProductRow.status
        = some "skipped" ∧
    (sync_upsert excludedProduct (some doneFullRow)).map ProductRow.status = some "skipped" := by
  refine ⟨by decide, by decide, by decide⟩

/-- C8 (amended): discovery marking with the orders the code actually uses.
Bulk discovery checks the already-progressed guard first: a row already
`done`/`partial`/`skipped` is left untouched even for excluded products;
otherwise excluded products (id 3718 or membership category) are marked
`skipped` and the rest `queued`, never touching completion flags.  Sync
checks exclusion first: excluded products are always (re)marked `skipped`;
otherwise a `skipped` row is untouched, a `done`/`partial` row keeps its
status (only titles/permalink/old_slug refresh), and the rest are marked
`pending` — in every branch the completion flags are preserved. -/
theorem discovery_marking_amended :
    (∀ (p : WCProduct) (r : ProductRow), p.id ≠ 0 →
      (r.status = "done" ∨ r.status = "partial" ∨ r.status = "skipped") →
      handle_discovered p (some r) = some r) ∧
    (∀ (p : WCProduct) (e : Option ProductRow), p.id ≠ 0 → progressedStatus e = false →
      ∃ r2, handle_discovered p e = some r2 ∧
        r2.status = (if p.id = 3718 ∨ wc_is_membership_product p = true then "skipped"
          else "queued") ∧
        rowFlags r2 = rowFlags (e.getD ProductRow.blank)) ∧
    (∀ (p : WCProduct) (e : Option ProductRow), p.id ≠ 0 →
      (p.id = 3718 ∨ wc_is_membership_product p = true) →
      ∃ r2, sync_upsert p e = some r2 ∧ r2.status = "skipped" ∧
        rowFlags r2 = rowFlags (e.getD ProductRow.blank)) ∧
    (∀ (p : WCProduct) (r : ProductRow), p.id ≠ 0 →
      ¬(p.id = 3718 ∨ wc_is_membership_product p = true) →
      (r.status = "done" ∨ r.status = "partial") →
      ∃ r2, sync_upsert p (some r) = some r2 ∧ r2.status = r.status ∧
        rowFlags r2 = rowFlags r) ∧
    (∀ (p : WCProduct) (r : ProductRow), p.id ≠ 0 →
      ¬(p.id = 3718 ∨ wc_is_membership_product p = true) →
      r.status = "skipped" → sync_upsert p (some r) = some r) ∧
    (∀ (p : WCProduct) (e : Option ProductRow), p.id ≠ 0 →
      ¬(p.id = 3718 ∨ wc_is_membership_product p = true) →
      progressedStatus e = false →
      ∃ r2, sync_upsert p e = some r2 ∧ r2.status = "pending" ∧
        rowFlags r2 = rowFlags (e.getD ProductRow.blank)) := by
  refine ⟨?_, ?_, ?_, ?_, ?_, ?_⟩
  · intro p r hid hst
    rcases hst with h | h | h <;> simp [handle_discovered, progressedStatus, h, hid]
  · intro p e hid hprog
    by_cases h1 : p.id = 3718
    · have heq : handle_discovered p e = some (update_product_status e "skipped"
          (some "Skipped: excluded product_id 3718.") (clamp_spaces p.name) "" p.permalink) := by
        simp [handle_discovered, hid, hprog, h1]
      refine ⟨_, heq, ?_, ?_⟩ <;> cases e <;>
        simp [h1, update_product_status, rowFlags, ProductRow.blank]
    · by_cases h2 : wc_is_membership_product p = true
      · have heq : handle_discovered p e = some (update_product_status e "skipped"
            (some "Skipped: membership category.") (clamp_spaces p.name) "" p.permalink) := by
          simp [handle_discovered, hid, hprog, h1, h2]
        refine ⟨_, heq, ?_, ?_⟩ <;> cases e <;>
          simp [h1, h2, update_product_status, rowFlags, ProductRow.blank]
      · have heq : handle_discovered p e = some (update_product_status e "queued"
            none (clamp_spaces p.name) "" p.permalink) := by
          simp [handle_discovered, hid, hprog, h1, h2]
        refine ⟨_, heq, ?_, ?_⟩ <;> cases e <;>
          simp [h1, h2, update_product_status, rowFlags, ProductRow.blank]
  · intro p e hid hex
    have heq : sync_upsert p e = some (update_product_piece_flags
        (update_product_status e "skipped"
          (some (if p.id = 3718 then "Skipped: excluded product_id 3718."
            else "Skipped: membership category."))
          (clamp_spaces p.name) "" p.permalink)
        none none none none none none none none none none none
        (some (clamp_spaces p.slug)) none) := by
      simp [sync_upsert, hid, hex]
    refine ⟨_, heq, ?_, ?_⟩ <;> cases e <;>
      simp [update_product_status, update_product_piece_flags, rowFlags, ProductRow.blank]
  · intro p r hid hex hst
    have hns : r.status ≠ "skipped" := by
      rcases hst with h | h <;> rw [h] <;> decide
    have heq : sync_upsert p (some r) = some (update_product_piece_flags
        { r with old_title := clamp_spaces p.name, permalink := p.permalink }
        none none none none none none none none none none none
        (some (clamp_spaces p.slug)) none) := by
      simp [sync_upsert, hid, hex, hns, hst]
    refine ⟨_, heq, ?_, ?_⟩ <;> simp [update_product_piece_flags, rowFlags]
  · intro p r hid hex hst
    simp [sync_upsert, hid, hex, hst]
  · intro p e hid hex hprog
    cases e with
    | none =>
      have heq : sync_upsert p none = some (update_product_piece_flags
          (update_product_status none "pending" none (clamp_spaces p.name) "" p.permalink)
          none none none none none none none none none none none
          (some (clamp_spaces p.slug)) none) := by
        simp [sync_upsert, hid, hex]
      refine ⟨_, heq, ?_, ?_⟩ <;>
        simp [update_product_status, update_product_piece_flags, rowFlags, ProductRow.blank]
    | some r =>
      simp only [progressedStatus, Bool.or_eq_false_iff] at hprog
      obtain ⟨⟨hd, hp2⟩, hs⟩ := hprog
      have hd' : r.status ≠ "done" := by simpa using hd
      have hp2' : r.status ≠ "partial" := by simpa using hp2
      have hs' : r.status ≠ "skipped" := by simpa using hs
      have heq : sync_upsert p (some r) = some (update_product_piece_flags
          (update_product_status (some r) "pending" none (clamp_spaces p.name) "" p.permalink)
          none none none none none none none none none none none
          (some (clamp_spaces p.slug)) none) := by
        simp [sync_upsert, hid, hex, hd', hp2', hs']
      refine ⟨_, heq, ?_, ?_⟩ <;>
        simp [update_product_status, update_product_piece_flags, rowFlags]

/-- C8 witness: the amended marking applied at concrete inputs — a done row
is left alone by bulk discovery; a fresh membership product is marked
`skipped` by sync with clear flags. -/
theorem discovery_marking_amended_witness :
    handle_discovered ⟨3718, "Excluded", "https://shop.example/p/3718", "x", [], []⟩
        (some { ProductRow.blank with status := "done" })
      = some { ProductRow.blank with status := "done" } ∧
    (∃ r2, sync_upsert
        ⟨21, "Club plan", "https://shop.example/p/21", "club",
          [("membership", "Membership")], []⟩ (none : Option ProductRow)
      = some r2 ∧ r2.status = "skipped" ∧
        rowFlags r2 = rowFlags ((none : Option ProductRow).getD ProductRow.blank)) :=
  ⟨discovery_marking_amended.1
      ⟨3718, "Excluded", "https://shop.example/p/3718", "x", [], []⟩
      { ProductRow.blank with status := "done" } (by decide) (Or.inl rfl),
   discovery_marking_amended.2.2.1
      ⟨21, "Club plan", "https://shop.example/p/21", "club",
        [("membership", "Membership")], []⟩ none (by decide) (Or.inr (by decide))⟩

/-- C5 (code versus claim), evaluated at the failing input: a model that
returns the same invalid 45-character title for the initial prompt and both
corrective re-prompts.  The step does issue the 2 corrective re-prompts
(three model calls in all, the revisions quoting the current value and its
length through `build_title_revise_prompt`), but after the second failed
correction it returns the still-invalid title with no error — there is no
fatal give-up — and a bulk run completing with that title records
`title_done = 1` and status `done`, not `error` with `title_done` false as
the claim requires. -/
theorem product_title_step_no_fatal_give_up :
    product_title_step gemTitle45 "Sample original product title" =
      ([Eff.geminiCall (build_product_title_prompt "Sample original product title" false),
        Eff.geminiCall (build_title_revise_prompt
          "Premium WordPress Starter Theme Bundle Kit Go" false),
        Eff.geminiCall (build_title_revise_prompt
          "Premium WordPress Starter Theme Bundle Kit Go" false)],
       .ok ("Premium WordPress Starter Theme Bundle Kit Go",
        build_title_revise_prompt "Premium WordPress Starter Theme Bundle Kit Go" false,
        "\x7b\"title\": \"Premium WordPress Starter Theme Bundle Kit Go\"\x7d", 3)) ∧
    product_title_valid "Premium WordPress Starter Theme Bundle Kit Go" = false ∧
    ("Premium WordPress Starter Theme Bundle Kit Go" : String).toList.length = 45 ∧
    (process_bulk_item envTitle45 queuedRow8).title_done = 1 ∧
    (process_bulk_item envTitle45 queuedRow8).status = "done" := by
  refine ⟨rfl, by decide, by decide, by decide, by decide⟩

/-- C6: the SEO meta step always succeeds locally even when every model call
fails: no error escapes, the meta title and description are the sanitised
local derivations clamped to (50, 60) and (140, 160) with their filler pads,
and the focus keyword falls back to the derivation from the title. -/
theorem generate_product_seo_meta_local_fallback
    (gem : Nat → Except String String) (title desc : String) (sr : Bool)
    (hfail : ∀ i, ∃ e, gem i = .error e) :
    generate_product_seo_meta gem title desc sr =
      (clamp_to_range (seo_sanitize title true) 50 60 "Premium Download",
       clamp_to_range (seo_sanitize ⟨(strip_html desc).toList.take 180⟩ true) 140 160
         "GPL download for WordPress developers.",
       (let k1 := derive_focus_keyword title
        let k2 := derive_focus_keyword (if k1 ≠ "" then k1 else title)
        if containsSub k2 "woocommerce pro" || containsSub k2 "woocomerce" then
          derive_focus_keyword title
        else k2),
       build_product_seo_prompt title desc sr, "") := by
  obtain ⟨e0, h0⟩ := hfail 0
  have hsan : seo_sanitize "" true = "" := rfl
  have hsan2 : pyLower (seo_sanitize "" false) = "" := rfl
  unfold generate_product_seo_meta
  rw [h0]
  simp [jGet, jTruthy, hsan, hsan2]

/-- C6 witness: the fallback theorem applied with a model that always fails
on quota. -/
theorem generate_product_seo_meta_local_fallback_witness :
    generate_product_seo_meta (fun _ => .error "ResourceExhausted")
        "Elementor Landing Page Template Pack" "<p>Landing pages built fast.</p>" false =
      (clamp_to_range (seo_sanitize "Elementor Landing Page Template Pack" true)
         50 60 "Premium Download",
       clamp_to_range (seo_sanitize
           ⟨(strip_html "<p>Landing pages built fast.</p>").toList.take 180⟩ true) 140 160
         "GPL download for WordPress developers.",
       (let k1 := derive_focus_keyword "Elementor Landing Page Template Pack"
        let k2 := derive_focus_keyword
          (if k1 ≠ "" then k1 else "Elementor Landing Page Template Pack")
        if containsSub k2 "woocommerce pro" || containsSub k2 "woocomerce" then
          derive_focus_keyword "Elementor Landing Page Template Pack"
        else k2),
       build_product_seo_prompt "Elementor Landing Page Template Pack"
         "<p>Landing pages built fast.</p>" false, "") :=
  generate_product_seo_meta_local_fallback (fun _ => .error "ResourceExhausted")
    "Elementor Landing Page Template Pack" "<p>Landing pages built fast.</p>" false
    (fun _ => ⟨"ResourceExhausted", rfl⟩)

end BlogAuto
